import Mathlib

/-!
# LED board firmware (`src/src/main.cpp`): strobe scheduler

A shallow embedding of the firmware's global state, of `setup()`, of one
iteration of the `while` loop of `loop()`, and of the timer interrupt
handler `ISR(TCA0_OVF_vect)`, followed by the properties proved about them.

Machine integers are natural numbers / integers with explicit wrap-around:
`uint8_t` values are reduced modulo `2^8`, the 16-bit `int` of the AVR target
is wrapped into `[-2^15, 2^15)`.
-/

namespace EfsLed

/-! ## Configuration (main.cpp, lines 30-109) -/

/-- Bit mask of pin 3 inside a port register (`PIN3_bm` of the device header). -/
def PIN3_bm : Nat := 0x08

/-- Line 40: number of pixels in the chain. -/
def NEOPIXEL_CNT : Nat := 6

/-- Line 44: data bytes per pixel. -/
def NEOPIXEL_BYTES_PER_PIXEL : Nat := 3

/-- Line 47: index of the 1st navigation light. -/
def NAV_LIGHT_A_IDX : Nat := 1

/-- Line 48: index of the 2nd navigation light. -/
def NAV_LIGHT_B_IDX : Nat := 2

/-- Line 49: index of the 1st beacon light. -/
def BEA_LIGHT_A_IDX : Nat := 3

/-- Line 50: index of the 2nd beacon light. -/
def BEA_LIGHT_B_IDX : Nat := 4

/-- Line 51: index of the 1st anti-collision light. -/
def COL_LIGHT_A_IDX : Nat := 5

/-- Line 52: index of the 2nd anti-collision light. -/
def COL_LIGHT_B_IDX : Nat := 0

/-- Line 87: overflow value computed for a 100 ms increment. -/
def INCREMENT_OVERFLOW : Nat := 1953

/-- Line 90: color of port side nav lights (0x00rrggbb). -/
def NAV_LIGHT_P_COLOR : Nat := 0x00FF0000

/-- Line 92: color of starboard side nav lights (0x00rrggbb). -/
def NAV_LIGHT_S_COLOR : Nat := 0x0000FF00

/-- Line 95: color of beacon lights (0x00rrggbb). -/
def BEA_LIGHT_COLOR : Nat := 0x00FF0000

/-- Line 98: increments the beacon lights are meant to be on each strobe. -/
def BEA_LIGHT_INCR_HI : Nat := 12

/-- Line 99: increments the beacon lights are meant to be off each strobe. -/
def BEA_LIGHT_INCR_LO : Nat := 12

/-- Line 102: color of anti-collision lights (0x00rrggbb). -/
def COL_LIGHT_COLOR : Nat := 0x00FFFFFF

/-- Line 105: color of off lights. -/
def OFF_COLOR : Nat := 0x00000000

/-- Line 108: increments the anti-collision lights are meant to be on. -/
def COL_LIGHT_INCR_HI : Nat := 10

/-- Line 109: increments the anti-collision lights are meant to be off. -/
def COL_LIGHT_INCR_LO : Nat := 11

/-- The four strobe durations `*_LIGHT_INCR_HI` / `*_LIGHT_INCR_LO`, read as
parameters of the loop body. `configured` holds the values of the macros. -/
structure Timing where
  BEA_HI : Nat
  BEA_LO : Nat
  COL_HI : Nat
  COL_LO : Nat
  deriving DecidableEq

/-- The durations the source file is compiled with (lines 98, 99, 108, 109). -/
def configured : Timing :=
  { BEA_HI := BEA_LIGHT_INCR_HI, BEA_LO := BEA_LIGHT_INCR_LO,
    COL_HI := COL_LIGHT_INCR_HI, COL_LO := COL_LIGHT_INCR_LO }

/-! ## State (main.cpp, lines 113-138) -/

/-- Line 114: `enum Side { PORT, STBD }`. -/
inductive Side where
  | PORT
  | STBD
  deriving DecidableEq

/-- A call made on the pixel object `flight_lights`: `setPixelColor(n, c)` or
`show()`. The driver itself is an external collaborator; the firmware's
observable output is the sequence of these calls. -/
inductive Call where
  | setPixelColor (n : Nat) (c : Nat)
  | show_
  deriving DecidableEq

/-- The global variables of main.cpp, the timer registers written by
`setup()`, and the trace of calls made on `flight_lights` (oldest first). -/
structure State where
  board_side : Side
  bea_dur_in_state : Nat
  col_dur_in_state : Nat
  bea_state : Bool
  col_state : Bool
  increment_updates_needed : Int
  TCA0_SINGLE_PER : Nat
  TCA0_SINGLE_CTRLB : Nat
  TCA0_SINGLE_CTRLA : Nat
  TCA0_SINGLE_INTCTRL : Nat
  calls : List Call
  deriving DecidableEq

/-- The globals as initialised at lines 126-138 (an uninitialised global enum
is zero, i.e. `PORT`), no call made yet. The four timer registers are all
overwritten by `setup()`; they start here at 0. -/
def powerOn : State :=
  { board_side := Side.PORT
    bea_dur_in_state := 0
    col_dur_in_state := 0
    bea_state := false
    col_state := false
    increment_updates_needed := 0
    TCA0_SINGLE_PER := 0
    TCA0_SINGLE_CTRLB := 0
    TCA0_SINGLE_CTRLA := 0
    TCA0_SINGLE_INTCTRL := 0
    calls := [] }

/-- Wrap-around of the AVR's 16-bit signed `int`. -/
def wrapInt16 (x : Int) : Int := (x + 32768) % 65536 - 32768

/-- Wrap-around of `uint8_t`. -/
def wrapU8 (x : Nat) : Nat := x % 256

/-- Value of a C++ `bool` promoted to `int`. -/
def boolToInt (b : Bool) : Int := if b then 1 else 0

/-! ## `setup()` (main.cpp, lines 140-174) -/

/-- `setup()`, with the value read from the input register `PORTA_IN` as a
parameter. Pin-direction and pull-up writes have no effect on the modelled
state. -/
def setup (PORTA_IN : Nat) (s : State) : State :=
  -- board_side = PORTA_IN & PIN3_bm ? Side::PORT : Side::STBD;
  let board_side := if PORTA_IN &&& PIN3_bm ≠ 0 then Side.PORT else Side.STBD
  -- uint32_t nav_color = board_side == Side::PORT ? NAV_LIGHT_P_COLOR : NAV_LIGHT_S_COLOR;
  let nav_color := if board_side = Side.PORT then NAV_LIGHT_P_COLOR else NAV_LIGHT_S_COLOR
  { s with
    board_side := board_side
    calls := s.calls ++
      [Call.setPixelColor NAV_LIGHT_A_IDX nav_color,
       Call.setPixelColor NAV_LIGHT_B_IDX nav_color,
       Call.show_]
    TCA0_SINGLE_PER := 0xFFFF
    TCA0_SINGLE_CTRLB := 0x00
    TCA0_SINGLE_CTRLA := 0b00000011
    TCA0_SINGLE_INTCTRL := 0b00000001 }

/-! ## `loop()` (main.cpp, lines 176-235) -/

/-- Lines 182-204: the beacon block of the loop body, run after both duration
counters have been incremented. -/
def beaconBlock (t : Timing) (s : State) : State :=
  -- if (bea_dur_in_state >= (bea_state ? BEA_LIGHT_INCR_HI : BEA_LIGHT_INCR_LO))
  if s.bea_dur_in_state ≥ (if s.bea_state then t.BEA_HI else t.BEA_LO) then
    -- bea_state = !bea_state;
    let bea_state := !s.bea_state
    -- if (0 == bea_state ? BEA_LIGHT_INCR_HI : BEA_LIGHT_INCR_LO) bea_state = !bea_state;
    -- `==` binds tighter than `?:`, so the condition is
    -- `((0 == bea_state) ? BEA_LIGHT_INCR_HI : BEA_LIGHT_INCR_LO) != 0`
    let bea_state :=
      if (if (0 : Int) = boolToInt bea_state then t.BEA_HI else t.BEA_LO) ≠ 0
      then !bea_state else bea_state
    -- if (!bea_state) { ... BEA_LIGHT_COLOR ... } else { ... OFF_COLOR ... }
    let writes :=
      if (!bea_state) = true then
        [Call.setPixelColor BEA_LIGHT_A_IDX BEA_LIGHT_COLOR,
         Call.setPixelColor BEA_LIGHT_B_IDX BEA_LIGHT_COLOR]
      else
        [Call.setPixelColor BEA_LIGHT_A_IDX OFF_COLOR,
         Call.setPixelColor BEA_LIGHT_B_IDX OFF_COLOR]
    -- flight_lights.show(); bea_dur_in_state = 0;
    { s with
      bea_state := bea_state
      calls := s.calls ++ writes ++ [Call.show_]
      bea_dur_in_state := 0 }
  else s

/-- Lines 207-228: the anti-collision block of the loop body. -/
def collisionBlock (t : Timing) (s : State) : State :=
  -- if (col_dur_in_state >= (col_state ? COL_LIGHT_INCR_HI : COL_LIGHT_INCR_LO))
  if s.col_dur_in_state ≥ (if s.col_state then t.COL_HI else t.COL_LO) then
    -- col_state = !col_state;
    let col_state := !s.col_state
    -- if (0 == col_state ? COL_LIGHT_INCR_HI : COL_LIGHT_INCR_LO) col_state = !col_state;
    let col_state :=
      if (if (0 : Int) = boolToInt col_state then t.COL_HI else t.COL_LO) ≠ 0
      then !col_state else col_state
    -- if (!col_state) { ... COL_LIGHT_COLOR ... } else { ... OFF_COLOR ... }
    let writes :=
      if (!col_state) = true then
        [Call.setPixelColor COL_LIGHT_A_IDX COL_LIGHT_COLOR,
         Call.setPixelColor COL_LIGHT_B_IDX COL_LIGHT_COLOR]
      else
        [Call.setPixelColor COL_LIGHT_A_IDX OFF_COLOR,
         Call.setPixelColor COL_LIGHT_B_IDX OFF_COLOR]
    -- flight_lights.show(); col_dur_in_state = 0;
    { s with
      col_state := col_state
      calls := s.calls ++ writes ++ [Call.show_]
      col_dur_in_state := 0 }
  else s

/-- Lines 178-228: the part of the loop body that advances both strobe
timers: the two increments, then the beacon and the anti-collision block. -/
def advanceTimers (t : Timing) (s : State) : State :=
  -- bea_dur_in_state++; col_dur_in_state++;
  let s := { s with bea_dur_in_state := wrapU8 (s.bea_dur_in_state + 1) }
  let s := { s with col_dur_in_state := wrapU8 (s.col_dur_in_state + 1) }
  collisionBlock t (beaconBlock t s)

/-- Lines 178-233: one execution of the body of `while (increment_updates_needed > 0)`:
both timers advance, then the pending counter is decremented (with interrupts
disabled, so the decrement is atomic). -/
def loopBody (t : Timing) (s : State) : State :=
  let s := advanceTimers t s
  -- increment_updates_needed -= 1;
  { s with increment_updates_needed := wrapInt16 (s.increment_updates_needed - 1) }

/-- One test of the `while` guard of `loop()` followed, when it holds, by one
execution of the body. -/
def loopIteration (t : Timing) (s : State) : State :=
  if s.increment_updates_needed > 0 then loopBody t s else s

/-- `loop()` when no interrupt fires while it runs: the body is executed
until the guard fails; each execution lowers the positive counter by one, so
`increment_updates_needed` executions are made. -/
def loop (t : Timing) (s : State) : State :=
  (loopIteration t)^[s.increment_updates_needed.toNat] s

/-! ## `ISR(TCA0_OVF_vect)` (main.cpp, lines 238-243) -/

/-- The timer overflow interrupt handler: `increment_updates_needed += 1`
(clearing the interrupt flag touches no modelled state). -/
def ISR_TCA0_OVF (s : State) : State :=
  { s with increment_updates_needed := wrapInt16 (s.increment_updates_needed + 1) }

/-! ## Executions -/

/-- One tick: the interrupt fires once, then the loop processes it. -/
def tick (t : Timing) (s : State) : State :=
  loopIteration t (ISR_TCA0_OVF s)

/-- State after `n` ticks. -/
def ticks (t : Timing) (n : Nat) (s : State) : State :=
  (tick t)^[n] s

/-- The state the firmware is in when `loop()` is first entered. -/
def started (PORTA_IN : Nat) : State := setup PORTA_IN powerOn

/-- An atomic event of the running firmware: the timer interrupt fires, or
`loop()` tests its guard and, when it holds, runs its body once. -/
inductive Event where
  | interrupt
  | iteration
  deriving DecidableEq

/-- Effect of one event. -/
def step (t : Timing) (s : State) : Event → State
  | Event.interrupt => ISR_TCA0_OVF s
  | Event.iteration => loopIteration t s

/-- Effect of a sequence of events, first event first. -/
def run (t : Timing) (s : State) (es : List Event) : State :=
  es.foldl (step t) s

/-- Number of executions of the loop body (each advancing both strobe timers
once) made while `es` is run from `s`. -/
def advancesPerformed (t : Timing) : State → List Event → Nat
  | _, [] => 0
  | s, e :: es =>
    (if e = Event.iteration ∧ s.increment_updates_needed > 0 then 1 else 0)
      + advancesPerformed t (step t s e) es

/-- Number of interrupts in a sequence of events. -/
def interrupts (es : List Event) : Nat := es.count Event.interrupt

/-! ## Observations -/

/-- The calls made on `flight_lights` between state `before` and the later
state `after` (the trace only grows). -/
def newCalls (before after : State) : List Call :=
  after.calls.drop before.calls.length

/-- Number of `show()` calls in a trace. -/
def showCount (cs : List Call) : Nat := cs.count Call.show_

/-- Whether a trace holds a `setPixelColor` call on pixel `n`. -/
def writesPixel (n : Nat) (cs : List Call) : Bool :=
  cs.any fun c =>
    match c with
    | Call.setPixelColor m _ => decide (m = n)
    | Call.show_ => false

/-- The beacon timer reaches its threshold in the loop body run from `s`: the
test of line 182 on the incremented counter. -/
def beaconDue (t : Timing) (s : State) : Bool :=
  decide (wrapU8 (s.bea_dur_in_state + 1) ≥ (if s.bea_state then t.BEA_HI else t.BEA_LO))

/-- The anti-collision timer reaches its threshold in the loop body run from
`s`: the test of line 207 on the incremented counter. -/
def collisionDue (t : Timing) (s : State) : Bool :=
  decide (wrapU8 (s.col_dur_in_state + 1) ≥ (if s.col_state then t.COL_HI else t.COL_LO))

/-- The side-select input PA3 reads high (pull-up, no jumper to the grounded PA2). -/
def PA3_high (PORTA_IN : Nat) : Bool := PORTA_IN.testBit 3

/-- Replace the pending-tick counter. -/
def withPending (x : Int) (s : State) : State :=
  { s with increment_updates_needed := x }

/-- The state at the entry of the beacon block: both duration counters
incremented (lines 178-179). -/
def incrementCounters (s : State) : State :=
  { s with
    bea_dur_in_state := wrapU8 (s.bea_dur_in_state + 1)
    col_dur_in_state := wrapU8 (s.col_dur_in_state + 1) }

/-- Number of executions of `bea_state = !bea_state` (lines 184 and 189) made
by the beacon block entered in state `s`. -/
def beaconFlips (t : Timing) (s : State) : Nat :=
  if s.bea_dur_in_state ≥ (if s.bea_state then t.BEA_HI else t.BEA_LO) then
    -- line 184, then line 189 under the test of line 188
    let bea_state := !s.bea_state
    1 + (if (if (0 : Int) = boolToInt bea_state then t.BEA_HI else t.BEA_LO) ≠ 0 then 1 else 0)
  else 0

/-- Number of executions of `col_state = !col_state` (lines 209 and 214) made
by the anti-collision block entered in state `s`. -/
def collisionFlips (t : Timing) (s : State) : Nat :=
  if s.col_dur_in_state ≥ (if s.col_state then t.COL_HI else t.COL_LO) then
    -- line 209, then line 214 under the test of line 213
    let col_state := !s.col_state
    1 + (if (if (0 : Int) = boolToInt col_state then t.COL_HI else t.COL_LO) ≠ 0 then 1 else 0)
  else 0

/-- Modelled from the spec: the Pixel Sink operation `setPixelColor(index, color)`
assigns the color to the pixel index, and `show()` transmits the buffer without
changing it (the driver's implementation is not among the sources). The result
is the color held by each pixel after the calls of a trace, starting from the
zero-initialised buffer `pixels` of line 121. -/
def pixelBuffer (cs : List Call) : Nat → Nat :=
  cs.foldl
    (fun buf c =>
      match c with
      | Call.setPixelColor n v => Function.update buf n v
      | Call.show_ => buf)
    (fun _ => 0)

/-! ## `SlimAdafruit_NeoPixel::canShow()` (SlimAdafruit_NeoPixel.h, lines 199-220) -/

/-- Subtraction of two `uint32_t` values. -/
def subU32 (a b : Nat) : Nat := (a + 4294967296 - b) % 4294967296

/-- `canShow()`, with the value returned by `micros()` and the member
`endTime` as parameters; the result is the returned boolean and the new value
of `endTime`. -/
def canShow (now endTime : Nat) : Bool × Nat :=
  -- if (endTime > now) { endTime = now; }
  let endTime := if endTime > now then now else endTime
  -- return (now - endTime) >= 300L;
  (decide (subU32 now endTime ≥ 300), endTime)

/-- No interrupt of the run of `es` from `s` finds the counter at 32767, the
largest value of the 16-bit `int`: no increment overflows. (The decrement is
guarded by `increment_updates_needed > 0` and cannot overflow.) -/
def noOverflow (t : Timing) : State → List Event → Bool
  | _, [] => true
  | s, Event.interrupt :: es =>
    decide (s.increment_updates_needed < 32767) && noOverflow t (ISR_TCA0_OVF s) es
  | s, Event.iteration :: es => noOverflow t (loopIteration t s) es

/-! ## The loop body, statement by statement (main.cpp, lines 178-233) -/

/-- Program points of the body of the `while` loop of `loop()`, each named by
the line of main.cpp that is executed next; `done` is the end of the body. -/
inductive PC where
  | L178 | L179
  | L182 | L184 | L188 | L189 | L192 | L193 | L194 | L197 | L198 | L200 | L203
  | L207 | L209 | L213 | L214 | L217 | L218 | L219 | L221 | L222 | L224 | L227
  | L232
  | done
  deriving DecidableEq

/-- The statement at a program point: the state it leaves and the program
point that follows. -/
def stmt (t : Timing) : PC → State → PC × State
  -- bea_dur_in_state++;
  | PC.L178, s => (PC.L179, { s with bea_dur_in_state := wrapU8 (s.bea_dur_in_state + 1) })
  -- col_dur_in_state++;
  | PC.L179, s => (PC.L182, { s with col_dur_in_state := wrapU8 (s.col_dur_in_state + 1) })
  -- if (bea_dur_in_state >= (bea_state ? BEA_LIGHT_INCR_HI : BEA_LIGHT_INCR_LO))
  | PC.L182, s =>
    if s.bea_dur_in_state ≥ (if s.bea_state then t.BEA_HI else t.BEA_LO)
    then (PC.L184, s) else (PC.L207, s)
  -- bea_state = !bea_state;
  | PC.L184, s => (PC.L188, { s with bea_state := !s.bea_state })
  -- if (0 == bea_state ? BEA_LIGHT_INCR_HI : BEA_LIGHT_INCR_LO)
  | PC.L188, s =>
    if (if (0 : Int) = boolToInt s.bea_state then t.BEA_HI else t.BEA_LO) ≠ 0
    then (PC.L189, s) else (PC.L192, s)
  -- bea_state = !bea_state;
  | PC.L189, s => (PC.L192, { s with bea_state := !s.bea_state })
  -- if (!bea_state)
  | PC.L192, s => if (!s.bea_state) = true then (PC.L193, s) else (PC.L197, s)
  -- flight_lights.setPixelColor(BEA_LIGHT_A_IDX, BEA_LIGHT_COLOR);
  | PC.L193, s =>
    (PC.L194, { s with calls := s.calls ++ [Call.setPixelColor BEA_LIGHT_A_IDX BEA_LIGHT_COLOR] })
  -- flight_lights.setPixelColor(BEA_LIGHT_B_IDX, BEA_LIGHT_COLOR);
  | PC.L194, s =>
    (PC.L200, { s with calls := s.calls ++ [Call.setPixelColor BEA_LIGHT_B_IDX BEA_LIGHT_COLOR] })
  -- flight_lights.setPixelColor(BEA_LIGHT_A_IDX, OFF_COLOR);
  | PC.L197, s =>
    (PC.L198, { s with calls := s.calls ++ [Call.setPixelColor BEA_LIGHT_A_IDX OFF_COLOR] })
  -- flight_lights.setPixelColor(BEA_LIGHT_B_IDX, OFF_COLOR);
  | PC.L198, s =>
    (PC.L200, { s with calls := s.calls ++ [Call.setPixelColor BEA_LIGHT_B_IDX OFF_COLOR] })
  -- flight_lights.show();
  | PC.L200, s => (PC.L203, { s with calls := s.calls ++ [Call.show_] })
  -- bea_dur_in_state = 0;
  | PC.L203, s => (PC.L207, { s with bea_dur_in_state := 0 })
  -- if (col_dur_in_state >= (col_state ? COL_LIGHT_INCR_HI : COL_LIGHT_INCR_LO))
  | PC.L207, s =>
    if s.col_dur_in_state ≥ (if s.col_state then t.COL_HI else t.COL_LO)
    then (PC.L209, s) else (PC.L232, s)
  -- col_state = !col_state;
  | PC.L209, s => (PC.L213, { s with col_state := !s.col_state })
  -- if (0 == col_state ? COL_LIGHT_INCR_HI : COL_LIGHT_INCR_LO)
  | PC.L213, s =>
    if (if (0 : Int) = boolToInt s.col_state then t.COL_HI else t.COL_LO) ≠ 0
    then (PC.L214, s) else (PC.L217, s)
  -- col_state = !col_state;
  | PC.L214, s => (PC.L217, { s with col_state := !s.col_state })
  -- if (!col_state)
  | PC.L217, s => if (!s.col_state) = true then (PC.L218, s) else (PC.L221, s)
  -- flight_lights.setPixelColor(COL_LIGHT_A_IDX, COL_LIGHT_COLOR);
  | PC.L218, s =>
    (PC.L219, { s with calls := s.calls ++ [Call.setPixelColor COL_LIGHT_A_IDX COL_LIGHT_COLOR] })
  -- flight_lights.setPixelColor(COL_LIGHT_B_IDX, COL_LIGHT_COLOR);
  | PC.L219, s =>
    (PC.L224, { s with calls := s.calls ++ [Call.setPixelColor COL_LIGHT_B_IDX COL_LIGHT_COLOR] })
  -- flight_lights.setPixelColor(COL_LIGHT_A_IDX, OFF_COLOR);
  | PC.L221, s =>
    (PC.L222, { s with calls := s.calls ++ [Call.setPixelColor COL_LIGHT_A_IDX OFF_COLOR] })
  -- flight_lights.setPixelColor(COL_LIGHT_B_IDX, OFF_COLOR);
  | PC.L222, s =>
    (PC.L224, { s with calls := s.calls ++ [Call.setPixelColor COL_LIGHT_B_IDX OFF_COLOR] })
  -- flight_lights.show();
  | PC.L224, s => (PC.L227, { s with calls := s.calls ++ [Call.show_] })
  -- col_dur_in_state = 0;
  | PC.L227, s => (PC.L232, { s with col_dur_in_state := 0 })
  -- increment_updates_needed -= 1; (between the two SREG writes of lines 231 and 233)
  | PC.L232, s =>
    (PC.done, { s with increment_updates_needed := wrapInt16 (s.increment_updates_needed - 1) })
  | PC.done, s => (PC.done, s)

/-- Execution of the statement at the current program point. -/
def stepBody (t : Timing) (c : PC × State) : PC × State := stmt t c.1 c.2

/-- Execution of `n` statements from a program point and state. -/
def execBody (t : Timing) : Nat → PC × State → PC × State
  | 0, c => c
  | n + 1, c => execBody t n (stepBody t c)

/-- Number of statements, among the first `n` executed from `c`, that change
the value of the state variable read by `obs` (`bea_state` or `col_state`). -/
def changesAlong (t : Timing) (obs : State → Bool) : Nat → PC × State → Nat
  | 0, _ => 0
  | n + 1, c =>
    (if obs (stepBody t c).2 = obs c.2 then 0 else 1) + changesAlong t obs n (stepBody t c)

/-! ## Basic facts -/

theorem land_PIN3_bm (x : Nat) : (x &&& PIN3_bm ≠ 0) ↔ x.testBit 3 = true := by
  have h8 : PIN3_bm = 2 ^ 3 := rfl
  constructor
  · intro h
    by_contra hb
    apply h
    apply Nat.eq_of_testBit_eq
    intro i
    rw [Nat.testBit_and, h8, Nat.testBit_two_pow, Nat.zero_testBit]
    by_cases hi : 3 = i
    · subst hi; simp [hb]
    · simp [hi]
  · intro hb h
    have h3 : (x &&& PIN3_bm).testBit 3 = true := by
      rw [Nat.testBit_and, hb, h8, Nat.testBit_two_pow_self]; rfl
    rw [h, Nat.zero_testBit] at h3
    exact Bool.false_ne_true h3

/-- The state after `setup()` depends on `PORTA_IN` through PA3 only. -/
theorem started_cases (PORTA_IN : Nat) :
    (PA3_high PORTA_IN = true ∧ started PORTA_IN = started 0x08) ∨
    (PA3_high PORTA_IN = false ∧ started PORTA_IN = started 0x00) := by
  by_cases h : PORTA_IN.testBit 3 = true
  · left
    refine ⟨h, ?_⟩
    have hp : PORTA_IN &&& PIN3_bm ≠ 0 := (land_PIN3_bm PORTA_IN).2 h
    simp [started, setup, hp]
    decide
  · right
    have hf : PORTA_IN.testBit 3 = false := by simpa using h
    refine ⟨hf, ?_⟩
    have hp : ¬ (PORTA_IN &&& PIN3_bm ≠ 0) := fun hc => h ((land_PIN3_bm PORTA_IN).1 hc)
    simp only [started, setup, hp]
    decide

/-! ## Traces of the two blocks -/

theorem showCount_append (xs ys : List Call) :
    showCount (xs ++ ys) = showCount xs + showCount ys := by
  simp [showCount]

theorem beaconBlock_col (t : Timing) (s : State) :
    (beaconBlock t s).col_state = s.col_state ∧
    (beaconBlock t s).col_dur_in_state = s.col_dur_in_state := by
  unfold beaconBlock
  by_cases h : s.bea_dur_in_state ≥ (if s.bea_state then t.BEA_HI else t.BEA_LO)
  · rw [if_pos h]; exact ⟨rfl, rfl⟩
  · rw [if_neg h]; exact ⟨rfl, rfl⟩

theorem beaconBlock_calls (t : Timing) (s : State) :
    ∃ ws, (beaconBlock t s).calls = s.calls ++ ws ∧
      showCount ws =
        if s.bea_dur_in_state ≥ (if s.bea_state then t.BEA_HI else t.BEA_LO) then 1 else 0 := by
  unfold beaconBlock
  by_cases h : s.bea_dur_in_state ≥ (if s.bea_state then t.BEA_HI else t.BEA_LO)
  · rw [if_pos h, if_pos h]
    dsimp only
    refine ⟨_, List.append_assoc _ _ _, ?_⟩
    rw [showCount_append]
    split_ifs <;> rfl
  · rw [if_neg h, if_neg h]
    exact ⟨[], by simp, rfl⟩

theorem collisionBlock_calls (t : Timing) (s : State) :
    ∃ ws, (collisionBlock t s).calls = s.calls ++ ws ∧
      showCount ws =
        if s.col_dur_in_state ≥ (if s.col_state then t.COL_HI else t.COL_LO) then 1 else 0 := by
  unfold collisionBlock
  by_cases h : s.col_dur_in_state ≥ (if s.col_state then t.COL_HI else t.COL_LO)
  · rw [if_pos h, if_pos h]
    dsimp only
    refine ⟨_, List.append_assoc _ _ _, ?_⟩
    rw [showCount_append]
    split_ifs <;> rfl
  · rw [if_neg h, if_neg h]
    exact ⟨[], by simp, rfl⟩

theorem advanceTimers_calls (t : Timing) (s : State) :
    ∃ ws, (advanceTimers t s).calls = s.calls ++ ws ∧
      showCount ws =
        (if beaconDue t s = true then 1 else 0) + (if collisionDue t s = true then 1 else 0) := by
  unfold advanceTimers
  dsimp only
  obtain ⟨w1, h1, c1⟩ := beaconBlock_calls t
    { s with bea_dur_in_state := wrapU8 (s.bea_dur_in_state + 1),
             col_dur_in_state := wrapU8 (s.col_dur_in_state + 1) }
  obtain ⟨w2, h2, c2⟩ := collisionBlock_calls t (beaconBlock t
    { s with bea_dur_in_state := wrapU8 (s.bea_dur_in_state + 1),
             col_dur_in_state := wrapU8 (s.col_dur_in_state + 1) })
  obtain ⟨f1, f2⟩ := beaconBlock_col t
    { s with bea_dur_in_state := wrapU8 (s.bea_dur_in_state + 1),
             col_dur_in_state := wrapU8 (s.col_dur_in_state + 1) }
  refine ⟨w1 ++ w2, ?_, ?_⟩
  · rw [h2, h1, List.append_assoc]
  · rw [showCount_append, c1, c2, f1, f2]
    simp only [beaconDue, collisionDue, decide_eq_true_eq]

/-! ## The pending counter -/

theorem wrapInt16_id (x : Int) (h1 : -32768 ≤ x) (h2 : x ≤ 32767) : wrapInt16 x = x := by
  unfold wrapInt16
  rw [Int.emod_eq_of_lt (by omega) (by omega)]
  omega

theorem withPending_withPending (x y : Int) (s : State) :
    withPending x (withPending y s) = withPending x s := rfl

theorem withPending_self (s : State) : withPending s.increment_updates_needed s = s := rfl

theorem beaconBlock_withPending (t : Timing) (x : Int) (s : State) :
    beaconBlock t (withPending x s) = withPending x (beaconBlock t s) := by
  unfold beaconBlock withPending
  by_cases h : s.bea_dur_in_state ≥ (if s.bea_state then t.BEA_HI else t.BEA_LO)
  · simp only [if_pos h]
  · simp only [if_neg h]

theorem collisionBlock_withPending (t : Timing) (x : Int) (s : State) :
    collisionBlock t (withPending x s) = withPending x (collisionBlock t s) := by
  unfold collisionBlock withPending
  by_cases h : s.col_dur_in_state ≥ (if s.col_state then t.COL_HI else t.COL_LO)
  · simp only [if_pos h]
  · simp only [if_neg h]

theorem advanceTimers_withPending (t : Timing) (x : Int) (s : State) :
    advanceTimers t (withPending x s) = withPending x (advanceTimers t s) := by
  unfold advanceTimers
  dsimp only
  rw [← collisionBlock_withPending, ← beaconBlock_withPending]
  rfl

theorem iterate_advanceTimers_withPending (t : Timing) (x : Int) (n : Nat) (s : State) :
    (advanceTimers t)^[n] (withPending x s) = withPending x ((advanceTimers t)^[n] s) := by
  induction n generalizing s with
  | zero => rfl
  | succ n ih =>
    rw [Function.iterate_succ_apply, Function.iterate_succ_apply, advanceTimers_withPending, ih]

theorem advanceTimers_pending (t : Timing) (s : State) :
    (advanceTimers t s).increment_updates_needed = s.increment_updates_needed := by
  have h := advanceTimers_withPending t s.increment_updates_needed s
  rw [withPending_self] at h
  rw [h]
  rfl

theorem loopBody_eq (t : Timing) (s : State) :
    loopBody t s = withPending (wrapInt16 (s.increment_updates_needed - 1)) (advanceTimers t s) := by
  unfold loopBody withPending
  dsimp only
  rw [advanceTimers_pending]

theorem ISR_eq (s : State) :
    ISR_TCA0_OVF s = withPending (wrapInt16 (s.increment_updates_needed + 1)) s := rfl

theorem interrupts_cons_interrupt (es : List Event) :
    interrupts (Event.interrupt :: es) = interrupts es + 1 := by
  simp [interrupts]

theorem interrupts_cons_iteration (es : List Event) :
    interrupts (Event.iteration :: es) = interrupts es := by
  simp [interrupts]

theorem run_accounting (t : Timing) (es : List Event) :
    ∀ s : State, 0 ≤ s.increment_updates_needed →
      s.increment_updates_needed + interrupts es ≤ 32767 →
      (advancesPerformed t s es : Int) ≤ s.increment_updates_needed + interrupts es ∧
      run t s es =
        withPending (s.increment_updates_needed + interrupts es - advancesPerformed t s es)
          ((advanceTimers t)^[advancesPerformed t s es] s) := by
  induction es with
  | nil =>
    intro s h0 _
    refine ⟨by simpa [advancesPerformed, interrupts] using h0, ?_⟩
    simp [run, advancesPerformed, interrupts, withPending]
  | cons e es ih =>
    intro s h0 hN
    cases e with
    | interrupt =>
      rw [interrupts_cons_interrupt] at hN ⊢
      have hs : step t s Event.interrupt = withPending (s.increment_updates_needed + 1) s := by
        show ISR_TCA0_OVF s = _
        rw [ISR_eq, wrapInt16_id _ (by omega) (by omega)]
      have hk : advancesPerformed t s (Event.interrupt :: es)
          = advancesPerformed t (step t s Event.interrupt) es := by
        simp [advancesPerformed]
      have hr : run t s (Event.interrupt :: es) = run t (step t s Event.interrupt) es := rfl
      rw [hk, hr, hs]
      obtain ⟨i1, i2⟩ := ih (withPending (s.increment_updates_needed + 1) s)
        (by show 0 ≤ s.increment_updates_needed + 1; omega)
        (by show s.increment_updates_needed + 1 + _ ≤ 32767; omega)
      have hp : (withPending (s.increment_updates_needed + 1) s).increment_updates_needed
          = s.increment_updates_needed + 1 := rfl
      rw [hp] at i1 i2
      refine ⟨by push_cast; omega, ?_⟩
      rw [i2, iterate_advanceTimers_withPending, withPending_withPending]
      congr 1
      push_cast
      omega
    | iteration =>
      rw [interrupts_cons_iteration] at hN ⊢
      by_cases hg : s.increment_updates_needed > 0
      · have hs : step t s Event.iteration
            = withPending (s.increment_updates_needed - 1) (advanceTimers t s) := by
          show loopIteration t s = _
          unfold loopIteration
          rw [if_pos hg, loopBody_eq, wrapInt16_id _ (by omega) (by omega)]
        have hk : advancesPerformed t s (Event.iteration :: es)
            = advancesPerformed t (step t s Event.iteration) es + 1 := by
          simp [advancesPerformed, hg, Nat.add_comm]
        have hr : run t s (Event.iteration :: es) = run t (step t s Event.iteration) es := rfl
        rw [hk, hr, hs]
        obtain ⟨i1, i2⟩ := ih (withPending (s.increment_updates_needed - 1) (advanceTimers t s))
          (by show 0 ≤ s.increment_updates_needed - 1; omega)
          (by show s.increment_updates_needed - 1 + _ ≤ 32767; omega)
        have hp : (withPending (s.increment_updates_needed - 1)
            (advanceTimers t s)).increment_updates_needed = s.increment_updates_needed - 1 := rfl
        rw [hp] at i1 i2
        refine ⟨by push_cast; omega, ?_⟩
        rw [i2, iterate_advanceTimers_withPending, withPending_withPending,
          Function.iterate_succ_apply]
        congr 1
        push_cast
        omega
      · have hs : step t s Event.iteration = s := by
          show loopIteration t s = _
          unfold loopIteration
          rw [if_neg hg]
        have hk : advancesPerformed t s (Event.iteration :: es)
            = advancesPerformed t (step t s Event.iteration) es := by
          simp [advancesPerformed, hg]
        have hr : run t s (Event.iteration :: es) = run t (step t s Event.iteration) es := rfl
        rw [hk, hr, hs]
        exact ih s h0 hN

theorem iterate_loopIteration (t : Timing) (n : Nat) :
    ∀ s : State, s.increment_updates_needed = n → n ≤ 32767 →
      (loopIteration t)^[n] s = withPending 0 ((advanceTimers t)^[n] s) := by
  induction n with
  | zero =>
    intro s h _
    have h0 : s.increment_updates_needed = 0 := by simpa using h
    show s = withPending 0 s
    rw [← h0, withPending_self]
  | succ n ih =>
    intro s h hn
    have hg : s.increment_updates_needed > 0 := by rw [h]; push_cast; omega
    have hs : loopIteration t s = withPending (n : Int) (advanceTimers t s) := by
      unfold loopIteration
      rw [if_pos hg, loopBody_eq, wrapInt16_id _ (by omega) (by omega), h]
      congr 1
      push_cast
      omega
    rw [Function.iterate_succ_apply, Function.iterate_succ_apply, hs,
      ih (withPending (n : Int) (advanceTimers t s)) rfl (by omega),
      iterate_advanceTimers_withPending, withPending_withPending]

/-- Run without interrupts, `loop()` executes its body once per pending tick
and returns with no tick pending. -/
theorem loop_drains (t : Timing) (s : State)
    (h0 : 0 ≤ s.increment_updates_needed) (h1 : s.increment_updates_needed ≤ 32767) :
    loop t s = withPending 0 ((advanceTimers t)^[s.increment_updates_needed.toNat] s) := by
  unfold loop
  exact iterate_loopIteration t _ s (by omega) (by omega)

theorem run_calls (t : Timing) (es : List Event) :
    ∀ s : State, ∃ rest, (run t s es).calls = s.calls ++ rest := by
  induction es with
  | nil => intro s; exact ⟨[], by simp [run]⟩
  | cons e es ih =>
    intro s
    obtain ⟨r2, h2⟩ := ih (step t s e)
    have hr : run t s (e :: es) = run t (step t s e) es := rfl
    have h1 : ∃ r1, (step t s e).calls = s.calls ++ r1 := by
      cases e with
      | interrupt => exact ⟨[], by simp [step, ISR_TCA0_OVF]⟩
      | iteration =>
        show ∃ r1, (loopIteration t s).calls = s.calls ++ r1
        unfold loopIteration
        by_cases hg : s.increment_updates_needed > 0
        · rw [if_pos hg]
          obtain ⟨ws, hw, _⟩ := advanceTimers_calls t s
          exact ⟨ws, by rw [loopBody_eq]; exact hw⟩
        · rw [if_neg hg]
          exact ⟨[], by simp⟩
    obtain ⟨r1, h1⟩ := h1
    exact ⟨r1 ++ r2, by rw [hr, h2, h1, List.append_assoc]⟩

theorem setup_board_side (PORTA_IN : Nat) (s : State) :
    (setup PORTA_IN s).board_side = (if PA3_high PORTA_IN = true then Side.PORT else Side.STBD) := by
  unfold setup PA3_high
  by_cases h : PORTA_IN.testBit 3 = true
  · have hp : PORTA_IN &&& PIN3_bm ≠ 0 := (land_PIN3_bm PORTA_IN).2 h
    simp [hp, h]
  · have hp : PORTA_IN &&& PIN3_bm = 0 := by
      by_contra hc
      exact h ((land_PIN3_bm PORTA_IN).1 hc)
    have hf : PORTA_IN.testBit 3 = false := by simpa using h
    simp [hp, hf]

theorem setup_calls (PORTA_IN : Nat) (s : State) :
    (setup PORTA_IN s).calls = s.calls ++
      [Call.setPixelColor NAV_LIGHT_A_IDX
         (if PA3_high PORTA_IN = true then NAV_LIGHT_P_COLOR else NAV_LIGHT_S_COLOR),
       Call.setPixelColor NAV_LIGHT_B_IDX
         (if PA3_high PORTA_IN = true then NAV_LIGHT_P_COLOR else NAV_LIGHT_S_COLOR),
       Call.show_] := by
  unfold setup PA3_high
  by_cases h : PORTA_IN.testBit 3 = true
  · have hp : PORTA_IN &&& PIN3_bm ≠ 0 := (land_PIN3_bm PORTA_IN).2 h
    simp [hp, h]
  · have hp : PORTA_IN &&& PIN3_bm = 0 := by
      by_contra hc
      exact h ((land_PIN3_bm PORTA_IN).1 hc)
    have hf : PORTA_IN.testBit 3 = false := by simpa using h
    simp [hp, hf]

/-! ## State of the two timers after the loop body -/

theorem beaconBlock_bea_state (t : Timing) (s : State) :
    (beaconBlock t s).bea_state =
      if s.bea_dur_in_state ≥ (if s.bea_state then t.BEA_HI else t.BEA_LO) then
        (if (if s.bea_state then t.BEA_HI else t.BEA_LO) ≠ 0 then s.bea_state else !s.bea_state)
      else s.bea_state := by
  unfold beaconBlock
  by_cases h : s.bea_dur_in_state ≥ (if s.bea_state then t.BEA_HI else t.BEA_LO)
  · rw [if_pos h, if_pos h]
    cases hb : s.bea_state <;> simp [boolToInt]
  · rw [if_neg h, if_neg h]

theorem beaconBlock_bea_dur (t : Timing) (s : State) :
    (beaconBlock t s).bea_dur_in_state =
      if s.bea_dur_in_state ≥ (if s.bea_state then t.BEA_HI else t.BEA_LO) then 0
      else s.bea_dur_in_state := by
  unfold beaconBlock
  by_cases h : s.bea_dur_in_state ≥ (if s.bea_state then t.BEA_HI else t.BEA_LO)
  · rw [if_pos h, if_pos h]
  · rw [if_neg h, if_neg h]

theorem collisionBlock_col_state (t : Timing) (s : State) :
    (collisionBlock t s).col_state =
      if s.col_dur_in_state ≥ (if s.col_state then t.COL_HI else t.COL_LO) then
        (if (if s.col_state then t.COL_HI else t.COL_LO) ≠ 0 then s.col_state else !s.col_state)
      else s.col_state := by
  unfold collisionBlock
  by_cases h : s.col_dur_in_state ≥ (if s.col_state then t.COL_HI else t.COL_LO)
  · rw [if_pos h, if_pos h]
    cases hb : s.col_state <;> simp [boolToInt]
  · rw [if_neg h, if_neg h]

theorem collisionBlock_col_dur (t : Timing) (s : State) :
    (collisionBlock t s).col_dur_in_state =
      if s.col_dur_in_state ≥ (if s.col_state then t.COL_HI else t.COL_LO) then 0
      else s.col_dur_in_state := by
  unfold collisionBlock
  by_cases h : s.col_dur_in_state ≥ (if s.col_state then t.COL_HI else t.COL_LO)
  · rw [if_pos h, if_pos h]
  · rw [if_neg h, if_neg h]

theorem collisionBlock_bea (t : Timing) (s : State) :
    (collisionBlock t s).bea_state = s.bea_state ∧
    (collisionBlock t s).bea_dur_in_state = s.bea_dur_in_state := by
  unfold collisionBlock
  by_cases h : s.col_dur_in_state ≥ (if s.col_state then t.COL_HI else t.COL_LO)
  · rw [if_pos h]; exact ⟨rfl, rfl⟩
  · rw [if_neg h]; exact ⟨rfl, rfl⟩

theorem advanceTimers_bea_state (t : Timing) (s : State) :
    (advanceTimers t s).bea_state =
      if beaconDue t s = true then
        (if (if s.bea_state then t.BEA_HI else t.BEA_LO) ≠ 0 then s.bea_state else !s.bea_state)
      else s.bea_state := by
  unfold advanceTimers
  dsimp only
  rw [(collisionBlock_bea t _).1, beaconBlock_bea_state]
  simp only [beaconDue, decide_eq_true_eq]

theorem advanceTimers_bea_dur (t : Timing) (s : State) :
    (advanceTimers t s).bea_dur_in_state =
      if beaconDue t s = true then 0 else wrapU8 (s.bea_dur_in_state + 1) := by
  unfold advanceTimers
  dsimp only
  rw [(collisionBlock_bea t _).2, beaconBlock_bea_dur]
  simp only [beaconDue, decide_eq_true_eq]

theorem advanceTimers_col_state (t : Timing) (s : State) :
    (advanceTimers t s).col_state =
      if collisionDue t s = true then
        (if (if s.col_state then t.COL_HI else t.COL_LO) ≠ 0 then s.col_state else !s.col_state)
      else s.col_state := by
  unfold advanceTimers
  dsimp only
  rw [collisionBlock_col_state, (beaconBlock_col t _).1, (beaconBlock_col t _).2]
  simp only [collisionDue, decide_eq_true_eq]

theorem advanceTimers_col_dur (t : Timing) (s : State) :
    (advanceTimers t s).col_dur_in_state =
      if collisionDue t s = true then 0 else wrapU8 (s.col_dur_in_state + 1) := by
  unfold advanceTimers
  dsimp only
  rw [collisionBlock_col_dur, (beaconBlock_col t _).1, (beaconBlock_col t _).2]
  simp only [collisionDue, decide_eq_true_eq]

/-- One tick from a state with no tick pending is one execution of the loop
body's timer part; the counter is back at 0. -/
theorem tick_of_idle (t : Timing) (s : State) (h : s.increment_updates_needed = 0) :
    tick t s = advanceTimers t s := by
  unfold tick loopIteration
  have h1 : (ISR_TCA0_OVF s) = withPending 1 s := by
    rw [ISR_eq, h]; rfl
  rw [h1, if_pos (by show (1 : Int) > 0; decide), loopBody_eq, advanceTimers_withPending]
  show withPending (wrapInt16 (1 - 1)) (withPending 1 (advanceTimers t s)) = _
  rw [withPending_withPending]
  have h2 : wrapInt16 (1 - 1) = (advanceTimers t s).increment_updates_needed := by
    rw [advanceTimers_pending, h]; rfl
  rw [h2, withPending_self]

/-- With the configured durations, after `n` ticks from startup both timers
are OFF, the beacon has `n % 12` and the anti-collision timer `n % 11` ticks
in state, and no tick is pending. -/
theorem ticks_configured (PORTA_IN : Nat) (n : Nat) :
    (ticks configured n (started PORTA_IN)).bea_state = false ∧
    (ticks configured n (started PORTA_IN)).col_state = false ∧
    (ticks configured n (started PORTA_IN)).bea_dur_in_state = n % 12 ∧
    (ticks configured n (started PORTA_IN)).col_dur_in_state = n % 11 ∧
    (ticks configured n (started PORTA_IN)).increment_updates_needed = 0 := by
  induction n with
  | zero => exact ⟨rfl, rfl, rfl, rfl, rfl⟩
  | succ n ih =>
    obtain ⟨h1, h2, h3, h4, h5⟩ := ih
    have hs : ticks configured (n + 1) (started PORTA_IN)
        = advanceTimers configured (ticks configured n (started PORTA_IN)) := by
      unfold ticks
      rw [Function.iterate_succ_apply']
      exact tick_of_idle _ _ h5
    rw [hs, advanceTimers_bea_state, advanceTimers_col_state, advanceTimers_bea_dur,
      advanceTimers_col_dur, advanceTimers_pending]
    generalize ticks configured n (started PORTA_IN) = s at h1 h2 h3 h4 h5 ⊢
    have a1 : n % 12 < 12 := Nat.mod_lt _ (by decide)
    have a2 : n % 11 < 11 := Nat.mod_lt _ (by decide)
    simp only [beaconDue, collisionDue, h1, h2, h3, h4, h5, configured, BEA_LIGHT_INCR_HI,
      BEA_LIGHT_INCR_LO, COL_LIGHT_INCR_HI, COL_LIGHT_INCR_LO, wrapU8]
    refine ⟨by simp, by simp, ?_, ?_, trivial⟩
    · split_ifs <;> simp at * <;> omega
    · split_ifs <;> simp at * <;> omega

/-! ## The strobe timers on the configured durations -/

set_option maxRecDepth 100000 in
/-- C1 (the code at the failing input): with the configured durations, after
11 ticks the beacon timer is OFF with 11 ticks in state; the next tick
increments the count to 12, the threshold of the OFF state, resets the count
to 0, and yet the timer ends the tick OFF, not ON. The anti-collision timer
does the same on its threshold tick (the 11th). -/
theorem C1_threshold_tick_keeps_state :
    (ticks configured 11 (started 0x08)).bea_state = false ∧
    (ticks configured 11 (started 0x08)).bea_dur_in_state = 11 ∧
    beaconDue configured (ticks configured 11 (started 0x08)) = true ∧
    (tick configured (ticks configured 11 (started 0x08))).bea_dur_in_state = 0 ∧
    (tick configured (ticks configured 11 (started 0x08))).bea_state = false ∧
    (ticks configured 10 (started 0x08)).col_state = false ∧
    (ticks configured 10 (started 0x08)).col_dur_in_state = 10 ∧
    collisionDue configured (ticks configured 10 (started 0x08)) = true ∧
    (tick configured (ticks configured 10 (started 0x08))).col_dur_in_state = 0 ∧
    (tick configured (ticks configured 10 (started 0x08))).col_state = false := by
  decide

set_option maxRecDepth 100000 in
/-- C2 (the code at the failing input): from the initial state OFF / 0 and
with the configured durations (beacon off-duration 12, anti-collision
off-duration 11), the threshold is reached on the 12th (resp. 11th) advance
and on none before, but after it the timer is still OFF, not ON. -/
theorem C2_after_off_duration_still_off :
    (started 0x08).bea_state = false ∧ (started 0x08).bea_dur_in_state = 0 ∧
    (∀ k : Fin 11, beaconDue configured (ticks configured k (started 0x08)) = false) ∧
    beaconDue configured (ticks configured 11 (started 0x08)) = true ∧
    (ticks configured 12 (started 0x08)).bea_state = false ∧
    (started 0x08).col_state = false ∧ (started 0x08).col_dur_in_state = 0 ∧
    (∀ k : Fin 10, collisionDue configured (ticks configured k (started 0x08)) = false) ∧
    collisionDue configured (ticks configured 10 (started 0x08)) = true ∧
    (ticks configured 11 (started 0x08)).col_state = false := by
  decide

set_option maxRecDepth 100000 in
/-- C3 (the code at the failing input): with the anti-collision durations
10 / 11 the timer is back at (OFF, 0) after 11 ticks and stands at (OFF, 10),
not at its initial (OFF, 0), after 10 + 11 = 21 ticks, so 21 is not a period;
and neither timer is ON after any of the first 24 ticks. -/
theorem C3_state_sequence_not_of_period_on_plus_off :
    (ticks configured 0 (started 0x08)).col_state = false ∧
    (ticks configured 0 (started 0x08)).col_dur_in_state = 0 ∧
    (ticks configured 11 (started 0x08)).col_state = false ∧
    (ticks configured 11 (started 0x08)).col_dur_in_state = 0 ∧
    (ticks configured 21 (started 0x08)).col_state = false ∧
    (ticks configured 21 (started 0x08)).col_dur_in_state = 10 ∧
    (∀ k : Fin 25, (ticks configured k (started 0x08)).bea_state = false) ∧
    (∀ k : Fin 25, (ticks configured k (started 0x08)).col_state = false) := by
  decide

set_option maxRecDepth 100000 in
/-- C4 (the code at the failing input): with the configured durations the
anti-collision timer reaches its threshold on tick 11 and the beacon timer on
tick 12; each ends that tick OFF (state variable false) and its two pixels
are assigned the light-on color, not OFF_COLOR. Conversely, with an
off-duration of 0 the first tick leaves the beacon timer ON (state variable
true) and assigns OFF_COLOR to its pixels. -/
theorem C4_color_written_for_off_state :
    (tick configured (ticks configured 10 (started 0x08))).col_state = false ∧
    newCalls (ticks configured 10 (started 0x08))
        (tick configured (ticks configured 10 (started 0x08))) =
      [Call.setPixelColor COL_LIGHT_A_IDX COL_LIGHT_COLOR,
       Call.setPixelColor COL_LIGHT_B_IDX COL_LIGHT_COLOR, Call.show_] ∧
    (tick configured (ticks configured 11 (started 0x08))).bea_state = false ∧
    newCalls (ticks configured 11 (started 0x08))
        (tick configured (ticks configured 11 (started 0x08))) =
      [Call.setPixelColor BEA_LIGHT_A_IDX BEA_LIGHT_COLOR,
       Call.setPixelColor BEA_LIGHT_B_IDX BEA_LIGHT_COLOR, Call.show_] ∧
    BEA_LIGHT_COLOR ≠ OFF_COLOR ∧ COL_LIGHT_COLOR ≠ OFF_COLOR ∧
    (tick { configured with BEA_LO := 0 } (started 0x08)).bea_state = true ∧
    newCalls (started 0x08) (tick { configured with BEA_LO := 0 } (started 0x08)) =
      [Call.setPixelColor BEA_LIGHT_A_IDX OFF_COLOR,
       Call.setPixelColor BEA_LIGHT_B_IDX OFF_COLOR, Call.show_] := by
  decide

/-! ## Flushes per tick -/

/-- C5 (counterexample): when loop() finds the 132nd tick pending, with the
configured durations, both strobe timers reach their threshold in the same
execution of the loop body (so at least one timer transitions), and that
execution issues two show() calls, not exactly one. -/
theorem C5_both_due_two_shows :
    beaconDue configured (ISR_TCA0_OVF (ticks configured 131 (started 0x08))) = true ∧
    collisionDue configured (ISR_TCA0_OVF (ticks configured 131 (started 0x08))) = true ∧
    showCount (newCalls (ISR_TCA0_OVF (ticks configured 131 (started 0x08)))
      (loopBody configured (ISR_TCA0_OVF (ticks configured 131 (started 0x08))))) = 2 := by
  obtain ⟨h1, h2, h3, h4, _⟩ := ticks_configured 0x08 131
  generalize ticks configured 131 (started 0x08) = s at h1 h2 h3 h4 ⊢
  have hb : beaconDue configured (ISR_TCA0_OVF s) = true := by
    simp [beaconDue, ISR_TCA0_OVF, h1, h3, configured, BEA_LIGHT_INCR_LO, wrapU8]
  have hc : collisionDue configured (ISR_TCA0_OVF s) = true := by
    simp [collisionDue, ISR_TCA0_OVF, h2, h4, configured, COL_LIGHT_INCR_LO, wrapU8]
  obtain ⟨ws, h, c⟩ := advanceTimers_calls configured (ISR_TCA0_OVF s)
  have hw : newCalls (ISR_TCA0_OVF s) (loopBody configured (ISR_TCA0_OVF s)) = ws := by
    simp [newCalls, loopBody, h]
  rw [hw, c, hb, hc]
  exact ⟨rfl, rfl, rfl⟩

/-- C5 (amended): for every execution of the loop body, from any state and
for any durations, the number of show() calls it issues is the number of
strobe timers that reach their threshold in it: none when neither does, one
when exactly one does, two when both do. -/
theorem C5_one_show_per_due_timer (t : Timing) (s : State) :
    showCount (newCalls s (loopBody t s)) =
      (if beaconDue t s = true then 1 else 0) + (if collisionDue t s = true then 1 else 0) := by
  obtain ⟨ws, h, c⟩ := advanceTimers_calls t s
  have hw : newCalls s (loopBody t s) = ws := by
    simp [newCalls, loopBody, h]
  rw [hw, c]

/-! ## Tick accounting -/

theorem run_accounting_of_noOverflow (t : Timing) (es : List Event) :
    ∀ s : State, 0 ≤ s.increment_updates_needed → s.increment_updates_needed ≤ 32767 →
      noOverflow t s es = true →
      (advancesPerformed t s es : Int) ≤ s.increment_updates_needed + interrupts es ∧
      run t s es =
        withPending (s.increment_updates_needed + interrupts es - advancesPerformed t s es)
          ((advanceTimers t)^[advancesPerformed t s es] s) := by
  induction es with
  | nil =>
    intro s h0 _ _
    refine ⟨by simpa [advancesPerformed, interrupts] using h0, ?_⟩
    simp [run, advancesPerformed, interrupts, withPending]
  | cons e es ih =>
    intro s h0 h1 hno
    cases e with
    | interrupt =>
      rw [interrupts_cons_interrupt]
      have hno2 : s.increment_updates_needed < 32767 ∧
          noOverflow t (ISR_TCA0_OVF s) es = true := by
        simpa [noOverflow] using hno
      have hs : step t s Event.interrupt = withPending (s.increment_updates_needed + 1) s := by
        show ISR_TCA0_OVF s = _
        rw [ISR_eq, wrapInt16_id _ (by omega) (by omega)]
      have hi : ISR_TCA0_OVF s = withPending (s.increment_updates_needed + 1) s := hs
      have hk : advancesPerformed t s (Event.interrupt :: es)
          = advancesPerformed t (step t s Event.interrupt) es := by
        simp [advancesPerformed]
      have hr : run t s (Event.interrupt :: es) = run t (step t s Event.interrupt) es := rfl
      rw [hk, hr, hs]
      obtain ⟨i1, i2⟩ := ih (withPending (s.increment_updates_needed + 1) s)
        (by show 0 ≤ s.increment_updates_needed + 1; omega)
        (by show s.increment_updates_needed + 1 ≤ 32767; omega)
        (by rw [← hi]; exact hno2.2)
      have hp : (withPending (s.increment_updates_needed + 1) s).increment_updates_needed
          = s.increment_updates_needed + 1 := rfl
      rw [hp] at i1 i2
      refine ⟨by push_cast; omega, ?_⟩
      rw [i2, iterate_advanceTimers_withPending, withPending_withPending]
      congr 1
      push_cast
      omega
    | iteration =>
      rw [interrupts_cons_iteration]
      have hno2 : noOverflow t (loopIteration t s) es = true := by
        simpa [noOverflow] using hno
      by_cases hg : s.increment_updates_needed > 0
      · have hl : loopIteration t s
            = withPending (s.increment_updates_needed - 1) (advanceTimers t s) := by
          unfold loopIteration
          rw [if_pos hg, loopBody_eq, wrapInt16_id _ (by omega) (by omega)]
        have hs : step t s Event.iteration
            = withPending (s.increment_updates_needed - 1) (advanceTimers t s) := hl
        have hk : advancesPerformed t s (Event.iteration :: es)
            = advancesPerformed t (step t s Event.iteration) es + 1 := by
          simp [advancesPerformed, hg, Nat.add_comm]
        have hr : run t s (Event.iteration :: es) = run t (step t s Event.iteration) es := rfl
        rw [hk, hr, hs]
        obtain ⟨i1, i2⟩ := ih (withPending (s.increment_updates_needed - 1) (advanceTimers t s))
          (by show 0 ≤ s.increment_updates_needed - 1; omega)
          (by show s.increment_updates_needed - 1 ≤ 32767; omega)
          (by rw [← hl]; exact hno2)
        have hp : (withPending (s.increment_updates_needed - 1)
            (advanceTimers t s)).increment_updates_needed = s.increment_updates_needed - 1 := rfl
        rw [hp] at i1 i2
        refine ⟨by push_cast; omega, ?_⟩
        rw [i2, iterate_advanceTimers_withPending, withPending_withPending,
          Function.iterate_succ_apply]
        congr 1
        push_cast
        omega
      · have hl : loopIteration t s = s := by
          unfold loopIteration
          rw [if_neg hg]
        have hs : step t s Event.iteration = s := hl
        have hk : advancesPerformed t s (Event.iteration :: es)
            = advancesPerformed t (step t s Event.iteration) es := by
          simp [advancesPerformed, hg]
        have hr : run t s (Event.iteration :: es) = run t (step t s Event.iteration) es := rfl
        rw [hk, hr, hs]
        exact ih s h0 h1 (by rw [← hl]; exact hno2)

/-- A run of at most 32767 interrupts from counter 0 has no overflow. -/
theorem noOverflow_of_few_interrupts (t : Timing) (es : List Event) :
    ∀ s : State, 0 ≤ s.increment_updates_needed →
      s.increment_updates_needed + interrupts es ≤ 32767 → noOverflow t s es = true := by
  induction es with
  | nil => intro s _ _; rfl
  | cons e es ih =>
    intro s h0 hN
    cases e with
    | interrupt =>
      rw [interrupts_cons_interrupt] at hN
      have hi : ISR_TCA0_OVF s = withPending (s.increment_updates_needed + 1) s := by
        rw [ISR_eq, wrapInt16_id _ (by omega) (by omega)]
      have h2 := ih (withPending (s.increment_updates_needed + 1) s)
        (by show 0 ≤ s.increment_updates_needed + 1; omega)
        (by show s.increment_updates_needed + 1 + _ ≤ 32767; push_cast at hN; omega)
      have h1 : s.increment_updates_needed < 32767 := by push_cast at hN; omega
      simp [noOverflow, h1, hi, h2]
    | iteration =>
      rw [interrupts_cons_iteration] at hN
      by_cases hg : s.increment_updates_needed > 0
      · have hl : loopIteration t s
            = withPending (s.increment_updates_needed - 1) (advanceTimers t s) := by
          unfold loopIteration
          rw [if_pos hg, loopBody_eq, wrapInt16_id _ (by omega) (by omega)]
        have h2 := ih (withPending (s.increment_updates_needed - 1) (advanceTimers t s))
          (by show 0 ≤ s.increment_updates_needed - 1; omega)
          (by show s.increment_updates_needed - 1 + _ ≤ 32767; omega)
        simp [noOverflow, hl, h2]
      · have hl : loopIteration t s = s := by
          unfold loopIteration
          rw [if_neg hg]
        simp [noOverflow, hl, ih s h0 hN]

/-- A run in which every interrupt is followed by a loop iteration, started
with no tick pending, has no overflow, however long it is. -/
theorem noOverflow_drained (t : Timing) (k : Nat) :
    ∀ s : State, s.increment_updates_needed = 0 →
      noOverflow t s (List.replicate k [Event.interrupt, Event.iteration]).flatten = true := by
  induction k with
  | zero => intro s _; rfl
  | succ k ih =>
    intro s h0
    have hl : (List.replicate (k + 1) [Event.interrupt, Event.iteration]).flatten
        = Event.interrupt :: Event.iteration ::
          (List.replicate k [Event.interrupt, Event.iteration]).flatten := by
      simp [List.replicate_succ]
    have ht : loopIteration t (ISR_TCA0_OVF s) = advanceTimers t s := tick_of_idle t s h0
    have hp : (advanceTimers t s).increment_updates_needed = 0 := by
      rw [advanceTimers_pending, h0]
    rw [hl]
    simp [noOverflow, h0, ht, ih (advanceTimers t s) hp]

theorem interrupts_drained (k : Nat) :
    interrupts (List.replicate k [Event.interrupt, Event.iteration]).flatten = k := by
  induction k with
  | zero => rfl
  | succ k ih =>
    have hl : (List.replicate (k + 1) [Event.interrupt, Event.iteration]).flatten
        = Event.interrupt :: Event.iteration ::
          (List.replicate k [Event.interrupt, Event.iteration]).flatten := by
      simp [List.replicate_succ]
    rw [hl, interrupts_cons_interrupt, interrupts_cons_iteration, ih]

/-- C6: started with the pending counter at 0, after any sequence of events
in which no increment overflows the 16-bit counter (no interrupt finds it at
32767), holding N interrupts, the counter equals N minus the number of
loop-body executions performed and is not negative; and whenever it is back
at 0, exactly N loop-body executions have been performed and the state is the
one reached by advancing both strobe timers N times. -/
theorem C6_tick_accounting (t : Timing) (s : State) (es : List Event)
    (h0 : s.increment_updates_needed = 0) (hN : noOverflow t s es = true) :
    (run t s es).increment_updates_needed
        = (interrupts es : Int) - (advancesPerformed t s es : Int) ∧
    0 ≤ (run t s es).increment_updates_needed ∧
    ((run t s es).increment_updates_needed = 0 →
      advancesPerformed t s es = interrupts es ∧
      run t s es = (advanceTimers t)^[interrupts es] s) := by
  obtain ⟨hk, hr⟩ := run_accounting_of_noOverflow t es s (by omega) (by omega) hN
  rw [h0] at hk hr
  have hc : (run t s es).increment_updates_needed
      = (interrupts es : Int) - (advancesPerformed t s es : Int) := by
    rw [hr]
    show (0 : Int) + _ - _ = _
    omega
  refine ⟨hc, by omega, ?_⟩
  intro hz
  have hkN : advancesPerformed t s es = interrupts es := by omega
  refine ⟨hkN, ?_⟩
  rw [hr, hkN]
  have hi := iterate_advanceTimers_withPending t s.increment_updates_needed (interrupts es) s
  rw [withPending_self, h0] at hi
  rw [show (0 : Int) + (interrupts es : Int) - (interrupts es : Int) = 0 by omega]
  exact hi.symm

/-- C6 (witness): 40000 ticks after startup, each processed by the loop
before the next interrupt: more interrupts than the 16-bit counter could
hold, none of which overflows it. -/
theorem C6_tick_accounting_witness :
    (started 0x08).increment_updates_needed = 0 ∧
    noOverflow configured (started 0x08)
      (List.replicate 40000 [Event.interrupt, Event.iteration]).flatten = true ∧
    interrupts (List.replicate 40000 [Event.interrupt, Event.iteration]).flatten = 40000 ∧
    ((run configured (started 0x08)
        (List.replicate 40000 [Event.interrupt, Event.iteration]).flatten
      ).increment_updates_needed
        = (interrupts (List.replicate 40000 [Event.interrupt, Event.iteration]).flatten : Int)
          - (advancesPerformed configured (started 0x08)
              (List.replicate 40000 [Event.interrupt, Event.iteration]).flatten : Int) ∧
      0 ≤ (run configured (started 0x08)
        (List.replicate 40000 [Event.interrupt, Event.iteration]).flatten
        ).increment_updates_needed ∧
      ((run configured (started 0x08)
          (List.replicate 40000 [Event.interrupt, Event.iteration]).flatten
        ).increment_updates_needed = 0 →
        advancesPerformed configured (started 0x08)
            (List.replicate 40000 [Event.interrupt, Event.iteration]).flatten
          = interrupts (List.replicate 40000 [Event.interrupt, Event.iteration]).flatten ∧
        run configured (started 0x08)
            (List.replicate 40000 [Event.interrupt, Event.iteration]).flatten
          = (advanceTimers configured)^[interrupts
              (List.replicate 40000 [Event.interrupt, Event.iteration]).flatten]
            (started 0x08))) :=
  ⟨rfl, noOverflow_drained configured 40000 (started 0x08) rfl, interrupts_drained 40000,
    C6_tick_accounting configured (started 0x08)
      (List.replicate 40000 [Event.interrupt, Event.iteration]).flatten rfl
      (noOverflow_drained configured 40000 (started 0x08) rfl)⟩

/-! ## Side selection in `setup()` -/

/-- C7 (counterexample): with PA3 reading high (jumper absent) the calls made
by setup() are setPixelColor(1, NAV_LIGHT_P_COLOR),
setPixelColor(2, NAV_LIGHT_P_COLOR), show(): the navigation pixels get the
port color, and no call assigns the starboard color NAV_LIGHT_S_COLOR. -/
theorem C7_jumper_absent_gives_port_color :
    PA3_high 0x08 = true ∧
    (started 0x08).calls =
      [Call.setPixelColor NAV_LIGHT_A_IDX NAV_LIGHT_P_COLOR,
       Call.setPixelColor NAV_LIGHT_B_IDX NAV_LIGHT_P_COLOR, Call.show_] ∧
    Call.setPixelColor NAV_LIGHT_A_IDX NAV_LIGHT_S_COLOR ∉ (started 0x08).calls ∧
    Call.setPixelColor NAV_LIGHT_B_IDX NAV_LIGHT_S_COLOR ∉ (started 0x08).calls ∧
    NAV_LIGHT_P_COLOR ≠ NAV_LIGHT_S_COLOR := by
  decide

/-- C7 (amended): when PA3 reads high (jumper absent) setup() sets the
navigation pixels NAV_LIGHT_A_IDX and NAV_LIGHT_B_IDX to the port color
NAV_LIGHT_P_COLOR, and when PA3 reads low (jumper present) to the starboard
color NAV_LIGHT_S_COLOR; these two writes and one show() are all the calls
setup() makes, and they stay the first calls of the trace after any sequence
of interrupts and loop iterations, so they precede every strobe pixel
write. -/
theorem C7_nav_color_written_first (PORTA_IN : Nat) (t : Timing) (es : List Event) :
    (PA3_high PORTA_IN = true →
      (started PORTA_IN).calls =
        [Call.setPixelColor NAV_LIGHT_A_IDX NAV_LIGHT_P_COLOR,
         Call.setPixelColor NAV_LIGHT_B_IDX NAV_LIGHT_P_COLOR, Call.show_] ∧
      ∃ rest, (run t (started PORTA_IN) es).calls =
        [Call.setPixelColor NAV_LIGHT_A_IDX NAV_LIGHT_P_COLOR,
         Call.setPixelColor NAV_LIGHT_B_IDX NAV_LIGHT_P_COLOR, Call.show_] ++ rest) ∧
    (PA3_high PORTA_IN = false →
      (started PORTA_IN).calls =
        [Call.setPixelColor NAV_LIGHT_A_IDX NAV_LIGHT_S_COLOR,
         Call.setPixelColor NAV_LIGHT_B_IDX NAV_LIGHT_S_COLOR, Call.show_] ∧
      ∃ rest, (run t (started PORTA_IN) es).calls =
        [Call.setPixelColor NAV_LIGHT_A_IDX NAV_LIGHT_S_COLOR,
         Call.setPixelColor NAV_LIGHT_B_IDX NAV_LIGHT_S_COLOR, Call.show_] ++ rest) := by
  obtain ⟨rest, hrest⟩ := run_calls t es (started PORTA_IN)
  have hs := setup_calls PORTA_IN powerOn
  constructor
  · intro h
    rw [h] at hs
    have hc : (started PORTA_IN).calls =
        [Call.setPixelColor NAV_LIGHT_A_IDX NAV_LIGHT_P_COLOR,
         Call.setPixelColor NAV_LIGHT_B_IDX NAV_LIGHT_P_COLOR, Call.show_] := by
      simpa [started, powerOn] using hs
    exact ⟨hc, rest, by rw [hrest, hc]⟩
  · intro h
    rw [h] at hs
    have hc : (started PORTA_IN).calls =
        [Call.setPixelColor NAV_LIGHT_A_IDX NAV_LIGHT_S_COLOR,
         Call.setPixelColor NAV_LIGHT_B_IDX NAV_LIGHT_S_COLOR, Call.show_] := by
      simpa [started, powerOn] using hs
    exact ⟨hc, rest, by rw [hrest, hc]⟩

/-- C7 (witness): jumper present (PA3 low), three ticks of which the loop has
processed two. -/
theorem C7_nav_color_written_first_witness :
    PA3_high 0x00 = false ∧
    (started 0x00).calls =
      [Call.setPixelColor NAV_LIGHT_A_IDX NAV_LIGHT_S_COLOR,
       Call.setPixelColor NAV_LIGHT_B_IDX NAV_LIGHT_S_COLOR, Call.show_] ∧
    ∃ rest, (run configured (started 0x00)
        [Event.interrupt, Event.iteration, Event.interrupt, Event.interrupt,
          Event.iteration]).calls =
      [Call.setPixelColor NAV_LIGHT_A_IDX NAV_LIGHT_S_COLOR,
       Call.setPixelColor NAV_LIGHT_B_IDX NAV_LIGHT_S_COLOR, Call.show_] ++ rest :=
  ⟨by decide,
    (C7_nav_color_written_first 0x00 configured
      [Event.interrupt, Event.iteration, Event.interrupt, Event.interrupt,
        Event.iteration]).2 (by decide)⟩

/-- C8: if PA3 reads low at startup (jumper between PA3 and PA2 present)
setup() sets board_side to STBD and assigns green 0x0000FF00 to navigation
pixels 1 and 2; if PA3 reads high (no jumper) it sets board_side to PORT and
assigns red 0x00FF0000 to both. -/
theorem C8_jumper_selects_side (PORTA_IN : Nat) (s : State) :
    (PA3_high PORTA_IN = false →
      (setup PORTA_IN s).board_side = Side.STBD ∧
      (setup PORTA_IN s).calls = s.calls ++
        [Call.setPixelColor 1 0x0000FF00, Call.setPixelColor 2 0x0000FF00, Call.show_]) ∧
    (PA3_high PORTA_IN = true →
      (setup PORTA_IN s).board_side = Side.PORT ∧
      (setup PORTA_IN s).calls = s.calls ++
        [Call.setPixelColor 1 0x00FF0000, Call.setPixelColor 2 0x00FF0000, Call.show_]) := by
  have hb := setup_board_side PORTA_IN s
  have hc := setup_calls PORTA_IN s
  constructor
  · intro h
    rw [h] at hb hc
    exact ⟨hb, hc⟩
  · intro h
    rw [h] at hb hc
    exact ⟨hb, hc⟩

/-- C8 (witness): both readings of PA3, from the power-on state. -/
theorem C8_jumper_selects_side_witness :
    PA3_high 0x00 = false ∧ PA3_high 0x08 = true ∧
    ((setup 0x00 powerOn).board_side = Side.STBD ∧
      (setup 0x00 powerOn).calls = powerOn.calls ++
        [Call.setPixelColor 1 0x0000FF00, Call.setPixelColor 2 0x0000FF00, Call.show_]) ∧
    ((setup 0x08 powerOn).board_side = Side.PORT ∧
      (setup 0x08 powerOn).calls = powerOn.calls ++
        [Call.setPixelColor 1 0x00FF0000, Call.setPixelColor 2 0x00FF0000, Call.show_]) :=
  ⟨by decide, by decide,
    (C8_jumper_selects_side 0x00 powerOn).1 (by decide),
    (C8_jumper_selects_side 0x08 powerOn).2 (by decide)⟩

/-! ## Scenario A: the beacon on the configured durations -/

set_option maxRecDepth 100000 in
/-- C9: with the configured durations and whatever the side-select input,
none of the ticks 1..11 writes beacon pixel 3 or 4, and the 12th tick makes
exactly the calls setPixelColor(3, BEA_LIGHT_COLOR),
setPixelColor(4, BEA_LIGHT_COLOR), show(): both beacon pixels are set to
0x00FF0000 and one flush is issued. -/
theorem C9_beacon_first_lit_on_tick_12 (PORTA_IN : Nat) :
    (∀ k : Fin 11,
      writesPixel BEA_LIGHT_A_IDX
        (newCalls (ticks configured k (started PORTA_IN))
          (tick configured (ticks configured k (started PORTA_IN)))) = false ∧
      writesPixel BEA_LIGHT_B_IDX
        (newCalls (ticks configured k (started PORTA_IN))
          (tick configured (ticks configured k (started PORTA_IN)))) = false) ∧
    newCalls (ticks configured 11 (started PORTA_IN))
        (tick configured (ticks configured 11 (started PORTA_IN))) =
      [Call.setPixelColor 3 0x00FF0000, Call.setPixelColor 4 0x00FF0000, Call.show_] ∧
    BEA_LIGHT_A_IDX = 3 ∧ BEA_LIGHT_B_IDX = 4 ∧ BEA_LIGHT_COLOR = 0x00FF0000 ∧
    showCount (newCalls (ticks configured 11 (started PORTA_IN))
        (tick configured (ticks configured 11 (started PORTA_IN)))) = 1 := by
  rcases started_cases PORTA_IN with ⟨_, h⟩ | ⟨_, h⟩ <;> rw [h] <;> decide

set_option maxRecDepth 100000 in
/-- C10 (the code at the failing input): with the configured durations the
24th tick assigns BEA_LIGHT_COLOR, not OFF_COLOR, to beacon pixels 3 and 4;
the beacon timer is OFF after every one of the first 24 ticks, and no call
made up to tick 24 assigns OFF_COLOR to a beacon pixel. -/
theorem C10_tick_24_writes_beacon_color :
    newCalls (ticks configured 23 (started 0x08))
        (tick configured (ticks configured 23 (started 0x08))) =
      [Call.setPixelColor BEA_LIGHT_A_IDX BEA_LIGHT_COLOR,
       Call.setPixelColor BEA_LIGHT_B_IDX BEA_LIGHT_COLOR, Call.show_] ∧
    BEA_LIGHT_COLOR ≠ OFF_COLOR ∧
    (∀ k : Fin 25, (ticks configured k (started 0x08)).bea_state = false) ∧
    Call.setPixelColor BEA_LIGHT_A_IDX OFF_COLOR ∉ (ticks configured 24 (started 0x08)).calls ∧
    Call.setPixelColor BEA_LIGHT_B_IDX OFF_COLOR ∉ (ticks configured 24 (started 0x08)).calls := by
  decide

/-! ## Exact traces of the loop body -/

theorem advanceTimers_eq (t : Timing) (s : State) :
    advanceTimers t s = collisionBlock t (beaconBlock t (incrementCounters s)) := rfl

theorem beaconBlock_calls_exact (t : Timing) (s : State) :
    (beaconBlock t s).calls = s.calls ++
      (if s.bea_dur_in_state ≥ (if s.bea_state then t.BEA_HI else t.BEA_LO) then
        [Call.setPixelColor BEA_LIGHT_A_IDX
           (if (beaconBlock t s).bea_state = false then BEA_LIGHT_COLOR else OFF_COLOR),
         Call.setPixelColor BEA_LIGHT_B_IDX
           (if (beaconBlock t s).bea_state = false then BEA_LIGHT_COLOR else OFF_COLOR),
         Call.show_]
       else []) := by
  unfold beaconBlock
  by_cases h : s.bea_dur_in_state ≥ (if s.bea_state then t.BEA_HI else t.BEA_LO)
  · simp only [if_pos h]
    split_ifs <;> simp_all
  · simp only [if_neg h]
    simp

theorem collisionBlock_calls_exact (t : Timing) (s : State) :
    (collisionBlock t s).calls = s.calls ++
      (if s.col_dur_in_state ≥ (if s.col_state then t.COL_HI else t.COL_LO) then
        [Call.setPixelColor COL_LIGHT_A_IDX
           (if (collisionBlock t s).col_state = false then COL_LIGHT_COLOR else OFF_COLOR),
         Call.setPixelColor COL_LIGHT_B_IDX
           (if (collisionBlock t s).col_state = false then COL_LIGHT_COLOR else OFF_COLOR),
         Call.show_]
       else []) := by
  unfold collisionBlock
  by_cases h : s.col_dur_in_state ≥ (if s.col_state then t.COL_HI else t.COL_LO)
  · simp only [if_pos h]
    split_ifs <;> simp_all
  · simp only [if_neg h]
    simp

/-- The calls made by the timer part of the loop body: for each timer that
reaches its threshold, two pixel writes and one `show()`, the beacon first. -/
theorem advanceTimers_calls_exact (t : Timing) (s : State) :
    (advanceTimers t s).calls = s.calls ++
      ((if beaconDue t s = true then
        [Call.setPixelColor BEA_LIGHT_A_IDX
           (if (advanceTimers t s).bea_state = false then BEA_LIGHT_COLOR else OFF_COLOR),
         Call.setPixelColor BEA_LIGHT_B_IDX
           (if (advanceTimers t s).bea_state = false then BEA_LIGHT_COLOR else OFF_COLOR),
         Call.show_]
       else []) ++
      (if collisionDue t s = true then
        [Call.setPixelColor COL_LIGHT_A_IDX
           (if (advanceTimers t s).col_state = false then COL_LIGHT_COLOR else OFF_COLOR),
         Call.setPixelColor COL_LIGHT_B_IDX
           (if (advanceTimers t s).col_state = false then COL_LIGHT_COLOR else OFF_COLOR),
         Call.show_]
       else [])) := by
  rw [advanceTimers_eq, collisionBlock_calls_exact, beaconBlock_calls_exact,
    (collisionBlock_bea t _).1, (beaconBlock_col t _).1, (beaconBlock_col t _).2,
    List.append_assoc]
  simp only [beaconDue, collisionDue, decide_eq_true_eq]
  rfl

/-! ## Pixel writes and pixel contents -/

theorem newCalls_of_append (s r : State) (ws : List Call) (h : r.calls = s.calls ++ ws) :
    newCalls s r = ws := by
  simp [newCalls, h]

theorem writesPixel_append (n : Nat) (xs ys : List Call) :
    writesPixel n (xs ++ ys) = (writesPixel n xs || writesPixel n ys) := by
  simp [writesPixel]

theorem loopBody_calls (t : Timing) (s : State) :
    (loopBody t s).calls = (advanceTimers t s).calls := rfl

/-- Which pixels one execution of the loop body writes: the two beacon pixels
when the beacon timer reaches its threshold, the two anti-collision pixels
when the anti-collision timer does, and no other. -/
theorem loopBody_writesPixel (t : Timing) (s : State) (n : Nat) :
    writesPixel n (newCalls s (loopBody t s)) =
      ((beaconDue t s && (decide (BEA_LIGHT_A_IDX = n) || decide (BEA_LIGHT_B_IDX = n))) ||
       (collisionDue t s && (decide (COL_LIGHT_A_IDX = n) || decide (COL_LIGHT_B_IDX = n)))) := by
  rw [newCalls_of_append s (loopBody t s) _
    (by rw [loopBody_calls]; exact advanceTimers_calls_exact t s)]
  cases beaconDue t s <;> cases collisionDue t s <;> simp [writesPixel, Bool.or_assoc]

theorem foldl_not_written (n : Nat) (ws : List Call) :
    ∀ buf : Nat → Nat, writesPixel n ws = false →
      (ws.foldl
        (fun buf c =>
          match c with
          | Call.setPixelColor n v => Function.update buf n v
          | Call.show_ => buf) buf) n = buf n := by
  induction ws with
  | nil => intro buf _; rfl
  | cons w ws ih =>
    intro buf h
    have hw : writesPixel n [w] = false ∧ writesPixel n ws = false := by
      have h2 := writesPixel_append n [w] ws
      rw [List.singleton_append, h] at h2
      simpa using h2.symm
    rw [List.foldl_cons, ih _ hw.2]
    cases w with
    | setPixelColor m v =>
      have hm : m ≠ n := by simpa [writesPixel] using hw.1
      simp [Function.update_apply, Ne.symm hm]
    | show_ => rfl

theorem pixelBuffer_append_not_written (n : Nat) (xs ws : List Call)
    (h : writesPixel n ws = false) :
    pixelBuffer (xs ++ ws) n = pixelBuffer xs n := by
  unfold pixelBuffer
  rw [List.foldl_append]
  exact foldl_not_written n ws _ h

/-- Any run only appends calls, and the appended pixel writes are on the four
strobe pixels. -/
theorem run_calls_strobe (t : Timing) (es : List Event) :
    ∀ s : State, ∃ rest, (run t s es).calls = s.calls ++ rest ∧
      ∀ n, n ≠ BEA_LIGHT_A_IDX → n ≠ BEA_LIGHT_B_IDX → n ≠ COL_LIGHT_A_IDX →
        n ≠ COL_LIGHT_B_IDX → writesPixel n rest = false := by
  induction es with
  | nil => intro s; exact ⟨[], by simp [run], fun _ _ _ _ _ => rfl⟩
  | cons e es ih =>
    intro s
    obtain ⟨r2, h2, w2⟩ := ih (step t s e)
    have hr : run t s (e :: es) = run t (step t s e) es := rfl
    have h1 : ∃ r1, (step t s e).calls = s.calls ++ r1 ∧
        ∀ n, n ≠ BEA_LIGHT_A_IDX → n ≠ BEA_LIGHT_B_IDX → n ≠ COL_LIGHT_A_IDX →
          n ≠ COL_LIGHT_B_IDX → writesPixel n r1 = false := by
      cases e with
      | interrupt => exact ⟨[], by simp [step, ISR_TCA0_OVF], fun _ _ _ _ _ => rfl⟩
      | iteration =>
        show ∃ r1, (loopIteration t s).calls = s.calls ++ r1 ∧ _
        unfold loopIteration
        by_cases hg : s.increment_updates_needed > 0
        · rw [if_pos hg]
          obtain ⟨ws, hw, _⟩ := advanceTimers_calls t s
          refine ⟨ws, by rw [loopBody_calls]; exact hw, ?_⟩
          intro n a b c d
          have hx := loopBody_writesPixel t s n
          rw [newCalls_of_append s (loopBody t s) ws (by rw [loopBody_calls]; exact hw)] at hx
          rw [hx]
          simp [Ne.symm a, Ne.symm b, Ne.symm c, Ne.symm d]
        · rw [if_neg hg]
          exact ⟨[], by simp, fun _ _ _ _ _ => rfl⟩
    obtain ⟨r1, h1, w1⟩ := h1
    refine ⟨r1 ++ r2, by rw [hr, h2, h1, List.append_assoc], ?_⟩
    intro n a b c d
    rw [writesPixel_append, w1 n a b c d, w2 n a b c d]
    rfl

/-! ## Non-transition ticks -/

/-- C11 (counterexample): with a beacon off-duration of 300 and the beacon
timer OFF with 255 ticks in state, 255 + 1 is smaller than the threshold, yet
the tick leaves the 8-bit counter at 0: it does not grow by 1. -/
theorem C11_counter_wraps_below_large_threshold :
    ({ started 0x08 with bea_dur_in_state := 255 } : State).bea_dur_in_state + 1
      < (if ({ started 0x08 with bea_dur_in_state := 255 } : State).bea_state
          then ({ configured with BEA_LO := 300 } : Timing).BEA_HI
          else ({ configured with BEA_LO := 300 } : Timing).BEA_LO) ∧
    (loopBody { configured with BEA_LO := 300 }
      { started 0x08 with bea_dur_in_state := 255 }).bea_dur_in_state = 0 ∧
    (loopBody { configured with BEA_LO := 300 }
      { started 0x08 with bea_dur_in_state := 255 }).bea_dur_in_state
      ≠ ({ started 0x08 with bea_dur_in_state := 255 } : State).bea_dur_in_state + 1 := by
  decide

/-- C11 (amended): for either strobe timer and any durations, if
ticksInState + 1 is smaller than the threshold of the current state, then one
execution of the loop body leaves the timer's state variable unchanged and
writes neither pixel of the timer's group; the 8-bit counter becomes
(ticksInState + 1) mod 256, which is ticksInState + 1 unless the counter was
at 255. -/
theorem C11_non_transition_tick (t : Timing) (s : State) :
    (s.bea_dur_in_state + 1 < (if s.bea_state then t.BEA_HI else t.BEA_LO) →
      (loopBody t s).bea_state = s.bea_state ∧
      (loopBody t s).bea_dur_in_state = (s.bea_dur_in_state + 1) % 256 ∧
      (s.bea_dur_in_state < 255 →
        (loopBody t s).bea_dur_in_state = s.bea_dur_in_state + 1) ∧
      writesPixel BEA_LIGHT_A_IDX (newCalls s (loopBody t s)) = false ∧
      writesPixel BEA_LIGHT_B_IDX (newCalls s (loopBody t s)) = false) ∧
    (s.col_dur_in_state + 1 < (if s.col_state then t.COL_HI else t.COL_LO) →
      (loopBody t s).col_state = s.col_state ∧
      (loopBody t s).col_dur_in_state = (s.col_dur_in_state + 1) % 256 ∧
      (s.col_dur_in_state < 255 →
        (loopBody t s).col_dur_in_state = s.col_dur_in_state + 1) ∧
      writesPixel COL_LIGHT_A_IDX (newCalls s (loopBody t s)) = false ∧
      writesPixel COL_LIGHT_B_IDX (newCalls s (loopBody t s)) = false) := by
  constructor
  · intro h
    have hd : beaconDue t s = false := by
      have hle : wrapU8 (s.bea_dur_in_state + 1) ≤ s.bea_dur_in_state + 1 := Nat.mod_le _ _
      simp only [beaconDue, decide_eq_false_iff_not, ge_iff_le, not_le]
      omega
    have h1 : (loopBody t s).bea_state = s.bea_state := by
      show (advanceTimers t s).bea_state = _
      rw [advanceTimers_bea_state, hd]; rfl
    have h2 : (loopBody t s).bea_dur_in_state = (s.bea_dur_in_state + 1) % 256 := by
      show (advanceTimers t s).bea_dur_in_state = _
      rw [advanceTimers_bea_dur, hd]; rfl
    refine ⟨h1, h2, ?_, ?_, ?_⟩
    · intro hlt
      rw [h2]
      omega
    · rw [loopBody_writesPixel, hd]; cases collisionDue t s <;> rfl
    · rw [loopBody_writesPixel, hd]; cases collisionDue t s <;> rfl
  · intro h
    have hd : collisionDue t s = false := by
      have hle : wrapU8 (s.col_dur_in_state + 1) ≤ s.col_dur_in_state + 1 := Nat.mod_le _ _
      simp only [collisionDue, decide_eq_false_iff_not, ge_iff_le, not_le]
      omega
    have h1 : (loopBody t s).col_state = s.col_state := by
      show (advanceTimers t s).col_state = _
      rw [advanceTimers_col_state, hd]; rfl
    have h2 : (loopBody t s).col_dur_in_state = (s.col_dur_in_state + 1) % 256 := by
      show (advanceTimers t s).col_dur_in_state = _
      rw [advanceTimers_col_dur, hd]; rfl
    refine ⟨h1, h2, ?_, ?_, ?_⟩
    · intro hlt
      rw [h2]
      omega
    · rw [loopBody_writesPixel, hd]; cases beaconDue t s <;> rfl
    · rw [loopBody_writesPixel, hd]; cases beaconDue t s <;> rfl

set_option maxRecDepth 100000 in
/-- C11 (witness): the beacon timer on the fourth tick after startup, with
the configured durations. -/
theorem C11_non_transition_tick_witness :
    (ISR_TCA0_OVF (ticks configured 3 (started 0x08))).bea_dur_in_state + 1
      < (if (ISR_TCA0_OVF (ticks configured 3 (started 0x08))).bea_state
          then configured.BEA_HI else configured.BEA_LO) ∧
    ((loopBody configured (ISR_TCA0_OVF (ticks configured 3 (started 0x08)))).bea_state
        = (ISR_TCA0_OVF (ticks configured 3 (started 0x08))).bea_state ∧
      (loopBody configured (ISR_TCA0_OVF (ticks configured 3 (started 0x08)))).bea_dur_in_state
        = ((ISR_TCA0_OVF (ticks configured 3 (started 0x08))).bea_dur_in_state + 1) % 256 ∧
      ((ISR_TCA0_OVF (ticks configured 3 (started 0x08))).bea_dur_in_state < 255 →
        (loopBody configured
            (ISR_TCA0_OVF (ticks configured 3 (started 0x08)))).bea_dur_in_state
          = (ISR_TCA0_OVF (ticks configured 3 (started 0x08))).bea_dur_in_state + 1) ∧
      writesPixel BEA_LIGHT_A_IDX
        (newCalls (ISR_TCA0_OVF (ticks configured 3 (started 0x08)))
          (loopBody configured (ISR_TCA0_OVF (ticks configured 3 (started 0x08))))) = false ∧
      writesPixel BEA_LIGHT_B_IDX
        (newCalls (ISR_TCA0_OVF (ticks configured 3 (started 0x08)))
          (loopBody configured (ISR_TCA0_OVF (ticks configured 3 (started 0x08))))) = false) :=
  ⟨by decide,
    (C11_non_transition_tick configured
      (ISR_TCA0_OVF (ticks configured 3 (started 0x08)))).1 (by decide)⟩

/-! ## The zero-duration special case -/

theorem beaconBlock_flips (t : Timing) (s : State) :
    beaconFlips t s ≤ 2 ∧
    (beaconBlock t s).bea_state = not^[beaconFlips t s] s.bea_state := by
  unfold beaconFlips beaconBlock
  by_cases h : s.bea_dur_in_state ≥ (if s.bea_state then t.BEA_HI else t.BEA_LO)
  · simp only [if_pos h]
    split_ifs <;> simp
  · simp only [if_neg h]
    simp

theorem collisionBlock_flips (t : Timing) (s : State) :
    collisionFlips t s ≤ 2 ∧
    (collisionBlock t s).col_state = not^[collisionFlips t s] s.col_state := by
  unfold collisionFlips collisionBlock
  by_cases h : s.col_dur_in_state ≥ (if s.col_state then t.COL_HI else t.COL_LO)
  · simp only [if_pos h]
    split_ifs <;> simp
  · simp only [if_neg h]
    simp

set_option maxRecDepth 100000 in
/-- C12 (the code at the failing input): with the configured durations, all
non-zero, the beacon timer reaches its threshold on tick 12 and the
anti-collision timer on tick 11, and each block then runs both the flip and
the flip-back, though the threshold of the newly entered ON state (12, resp.
10) is not 0. With all four durations 0 the block runs the flip only, though
the threshold of the newly entered state is 0. -/
theorem C12_flip_back_with_nonzero_durations :
    beaconDue configured (ticks configured 11 (started 0x08)) = true ∧
    beaconFlips configured (incrementCounters (ticks configured 11 (started 0x08))) = 2 ∧
    (ticks configured 11 (started 0x08)).bea_state = false ∧
    configured.BEA_HI = 12 ∧ configured.BEA_LO = 12 ∧
    collisionDue configured (ticks configured 10 (started 0x08)) = true ∧
    collisionFlips configured
      (beaconBlock configured (incrementCounters (ticks configured 10 (started 0x08)))) = 2 ∧
    (ticks configured 10 (started 0x08)).col_state = false ∧
    configured.COL_HI = 10 ∧ configured.COL_LO = 11 ∧
    beaconFlips { BEA_HI := 0, BEA_LO := 0, COL_HI := 0, COL_LO := 0 }
      (incrementCounters (started 0x08)) = 1 ∧
    (loopBody { BEA_HI := 0, BEA_LO := 0, COL_HI := 0, COL_LO := 0 }
      (started 0x08)).bea_state = true := by
  decide

/-! ## The loop body statement by statement: termination and state changes -/

theorem execBody_add (t : Timing) (a b : Nat) :
    ∀ c : PC × State, execBody t (a + b) c = execBody t b (execBody t a c) := by
  induction a with
  | zero => intro c; rw [Nat.zero_add]; rfl
  | succ a ih =>
    intro c
    rw [Nat.succ_add]
    exact ih (stepBody t c)

theorem changesAlong_add (t : Timing) (obs : State → Bool) (a b : Nat) :
    ∀ c : PC × State, changesAlong t obs (a + b) c
      = changesAlong t obs a c + changesAlong t obs b (execBody t a c) := by
  induction a with
  | zero => intro c; rw [Nat.zero_add]; simp [changesAlong, execBody]
  | succ a ih =>
    intro c
    rw [Nat.succ_add]
    show _ + changesAlong t obs (a + b) (stepBody t c) = _
    rw [ih (stepBody t c)]
    simp [changesAlong, execBody, Nat.add_assoc]

theorem execBody_done (t : Timing) (n : Nat) (s : State) :
    execBody t n (PC.done, s) = (PC.done, s) := by
  induction n with
  | zero => rfl
  | succ n ih => exact ih

theorem changesAlong_done (t : Timing) (obs : State → Bool) (n : Nat) (s : State) :
    changesAlong t obs n (PC.done, s) = 0 := by
  induction n with
  | zero => rfl
  | succ n ih =>
    show (if obs s = obs s then 0 else 1) + changesAlong t obs n (PC.done, s) = 0
    rw [ih]
    simp

/-- Lines 182-204 executed statement by statement: from the test of line 182
the execution reaches line 207 within 9 statements, in the state that
`beaconBlock` gives, having changed `bea_state` at most twice and `col_state`
not at all. -/
theorem beacon_segment (t : Timing) (s : State) :
    ∃ n, n ≤ 9 ∧ execBody t n (PC.L182, s) = (PC.L207, beaconBlock t s) ∧
      changesAlong t State.bea_state n (PC.L182, s) ≤ 2 ∧
      changesAlong t State.col_state n (PC.L182, s) = 0 := by
  by_cases hd : s.bea_dur_in_state ≥ (if s.bea_state then t.BEA_HI else t.BEA_LO)
  · cases hs : s.bea_state
    · have hd2 : t.BEA_LO ≤ s.bea_dur_in_state := by simpa [hs] using hd
      by_cases hz : t.BEA_LO = 0
      · refine ⟨8, by decide, ?_, ?_, ?_⟩ <;>
          simp [execBody, stepBody, stmt, changesAlong, beaconBlock, hs, hz, hd2, boolToInt]
      · refine ⟨9, by decide, ?_, ?_, ?_⟩ <;>
          simp [execBody, stepBody, stmt, changesAlong, beaconBlock, hs, hz, hd2, boolToInt]
    · have hd2 : t.BEA_HI ≤ s.bea_dur_in_state := by simpa [hs] using hd
      by_cases hz : t.BEA_HI = 0
      · refine ⟨8, by decide, ?_, ?_, ?_⟩ <;>
          simp [execBody, stepBody, stmt, changesAlong, beaconBlock, hs, hz, hd2, boolToInt]
      · refine ⟨9, by decide, ?_, ?_, ?_⟩ <;>
          simp [execBody, stepBody, stmt, changesAlong, beaconBlock, hs, hz, hd2, boolToInt]
  · refine ⟨1, by decide, ?_, ?_, ?_⟩ <;>
      simp [execBody, stepBody, stmt, changesAlong, beaconBlock, hd]

/-- Lines 207-228 executed statement by statement: from the test of line 207
the execution reaches line 232 within 9 statements, in the state that
`collisionBlock` gives, having changed `col_state` at most twice and
`bea_state` not at all. -/
theorem collision_segment (t : Timing) (s : State) :
    ∃ n, n ≤ 9 ∧ execBody t n (PC.L207, s) = (PC.L232, collisionBlock t s) ∧
      changesAlong t State.col_state n (PC.L207, s) ≤ 2 ∧
      changesAlong t State.bea_state n (PC.L207, s) = 0 := by
  by_cases hd : s.col_dur_in_state ≥ (if s.col_state then t.COL_HI else t.COL_LO)
  · cases hs : s.col_state
    · have hd2 : t.COL_LO ≤ s.col_dur_in_state := by simpa [hs] using hd
      by_cases hz : t.COL_LO = 0
      · refine ⟨8, by decide, ?_, ?_, ?_⟩ <;>
          simp [execBody, stepBody, stmt, changesAlong, collisionBlock, hs, hz, hd2, boolToInt]
      · refine ⟨9, by decide, ?_, ?_, ?_⟩ <;>
          simp [execBody, stepBody, stmt, changesAlong, collisionBlock, hs, hz, hd2, boolToInt]
    · have hd2 : t.COL_HI ≤ s.col_dur_in_state := by simpa [hs] using hd
      by_cases hz : t.COL_HI = 0
      · refine ⟨8, by decide, ?_, ?_, ?_⟩ <;>
          simp [execBody, stepBody, stmt, changesAlong, collisionBlock, hs, hz, hd2, boolToInt]
      · refine ⟨9, by decide, ?_, ?_, ?_⟩ <;>
          simp [execBody, stepBody, stmt, changesAlong, collisionBlock, hs, hz, hd2, boolToInt]
  · refine ⟨1, by decide, ?_, ?_, ?_⟩ <;>
      simp [execBody, stepBody, stmt, changesAlong, collisionBlock, hd]

/-- C13: for any durations, 0 included, and from any state, the body of the
loop executed statement by statement reaches its end within 21 statements,
whatever the fuel beyond 21, and ends in the state `loopBody` gives; along
the whole execution the value of bea_state changes at most twice and the
value of col_state changes at most twice. -/
theorem C13_body_terminates_with_at_most_two_flips (t : Timing) (s : State) (k : Nat) :
    execBody t (21 + k) (PC.L178, s) = (PC.done, loopBody t s) ∧
    changesAlong t State.bea_state (21 + k) (PC.L178, s) ≤ 2 ∧
    changesAlong t State.col_state (21 + k) (PC.L178, s) ≤ 2 := by
  obtain ⟨n1, b1, e1, cb1, cc1⟩ := beacon_segment t (incrementCounters s)
  obtain ⟨n2, b2, e2, cc2, cb2⟩ := collision_segment t (beaconBlock t (incrementCounters s))
  obtain ⟨r, hr⟩ : ∃ r, 21 + k = 2 + (n1 + (n2 + (1 + r))) := ⟨21 + k - 3 - n1 - n2, by omega⟩
  have h0 : execBody t 2 (PC.L178, s) = (PC.L182, incrementCounters s) := rfl
  have h3 : execBody t 1 (PC.L232, collisionBlock t (beaconBlock t (incrementCounters s)))
      = (PC.done, loopBody t s) := rfl
  have z0b : changesAlong t State.bea_state 2 (PC.L178, s) = 0 := by
    simp [changesAlong, stepBody, stmt]
  have z0c : changesAlong t State.col_state 2 (PC.L178, s) = 0 := by
    simp [changesAlong, stepBody, stmt]
  have z3b : changesAlong t State.bea_state 1
      (PC.L232, collisionBlock t (beaconBlock t (incrementCounters s))) = 0 := by
    simp [changesAlong, stepBody, stmt]
  have z3c : changesAlong t State.col_state 1
      (PC.L232, collisionBlock t (beaconBlock t (incrementCounters s))) = 0 := by
    simp [changesAlong, stepBody, stmt]
  rw [hr]
  refine ⟨?_, ?_, ?_⟩
  · rw [execBody_add, h0, execBody_add, e1, execBody_add, e2, execBody_add, h3, execBody_done]
  · rw [changesAlong_add, h0, changesAlong_add, e1, changesAlong_add, e2, changesAlong_add, h3,
      changesAlong_done, z0b, cb2, z3b]
    omega
  · rw [changesAlong_add, h0, changesAlong_add, e1, changesAlong_add, e2, changesAlong_add, h3,
      changesAlong_done, z0c, cc1, z3c]
    omega

set_option maxRecDepth 100000 in
/-- The bound of two changes is reached: with the configured durations the
12th tick changes bea_state twice and the 11th tick changes col_state
twice. -/
theorem changesAlong_reaches_two :
    changesAlong configured State.bea_state 21
      (PC.L178, ISR_TCA0_OVF (ticks configured 11 (started 0x08))) = 2 ∧
    changesAlong configured State.col_state 21
      (PC.L178, ISR_TCA0_OVF (ticks configured 10 (started 0x08))) = 2 := by
  decide

/-! ## Navigation pixels -/

theorem started_calls (PORTA_IN : Nat) :
    (started PORTA_IN).calls =
      [Call.setPixelColor NAV_LIGHT_A_IDX
         (if PA3_high PORTA_IN = true then NAV_LIGHT_P_COLOR else NAV_LIGHT_S_COLOR),
       Call.setPixelColor NAV_LIGHT_B_IDX
         (if PA3_high PORTA_IN = true then NAV_LIGHT_P_COLOR else NAV_LIGHT_S_COLOR),
       Call.show_] := by
  have h := setup_calls PORTA_IN powerOn
  simpa [started, powerOn] using h

/-- C14: whatever the side-select input, the durations and the sequence of
interrupts and loop iterations that follows setup(), no call made after
setup() writes pixel NAV_LIGHT_A_IDX (1) or NAV_LIGHT_B_IDX (2), and both
pixels hold the navigation color that setup() assigned. -/
theorem C14_nav_pixels_static (PORTA_IN : Nat) (t : Timing) (es : List Event) :
    writesPixel NAV_LIGHT_A_IDX
      (newCalls (started PORTA_IN) (run t (started PORTA_IN) es)) = false ∧
    writesPixel NAV_LIGHT_B_IDX
      (newCalls (started PORTA_IN) (run t (started PORTA_IN) es)) = false ∧
    pixelBuffer (run t (started PORTA_IN) es).calls NAV_LIGHT_A_IDX
      = pixelBuffer (started PORTA_IN).calls NAV_LIGHT_A_IDX ∧
    pixelBuffer (run t (started PORTA_IN) es).calls NAV_LIGHT_B_IDX
      = pixelBuffer (started PORTA_IN).calls NAV_LIGHT_B_IDX ∧
    pixelBuffer (started PORTA_IN).calls NAV_LIGHT_A_IDX
      = (if PA3_high PORTA_IN = true then NAV_LIGHT_P_COLOR else NAV_LIGHT_S_COLOR) ∧
    pixelBuffer (started PORTA_IN).calls NAV_LIGHT_B_IDX
      = (if PA3_high PORTA_IN = true then NAV_LIGHT_P_COLOR else NAV_LIGHT_S_COLOR) ∧
    NAV_LIGHT_A_IDX = 1 ∧ NAV_LIGHT_B_IDX = 2 := by
  obtain ⟨rest, h, w⟩ := run_calls_strobe t es (started PORTA_IN)
  have hn := newCalls_of_append (started PORTA_IN) (run t (started PORTA_IN) es) rest h
  have wa : writesPixel NAV_LIGHT_A_IDX rest = false :=
    w NAV_LIGHT_A_IDX (by decide) (by decide) (by decide) (by decide)
  have wb : writesPixel NAV_LIGHT_B_IDX rest = false :=
    w NAV_LIGHT_B_IDX (by decide) (by decide) (by decide) (by decide)
  refine ⟨by rw [hn]; exact wa, by rw [hn]; exact wb, ?_, ?_, ?_, ?_, rfl, rfl⟩
  · rw [h]; exact pixelBuffer_append_not_written _ _ _ wa
  · rw [h]; exact pixelBuffer_append_not_written _ _ _ wb
  · rw [started_calls]
    simp [pixelBuffer, Function.update_apply, NAV_LIGHT_A_IDX, NAV_LIGHT_B_IDX]
  · rw [started_calls]
    simp [pixelBuffer, Function.update_apply, NAV_LIGHT_A_IDX, NAV_LIGHT_B_IDX]

/-! ## The interrupt handler -/

theorem advancesPerformed_replicate_interrupt (t : Timing) (n : Nat) :
    ∀ s : State, advancesPerformed t s (List.replicate n Event.interrupt) = 0 := by
  induction n with
  | zero => intro s; rfl
  | succ n ih =>
    intro s
    rw [List.replicate_succ]
    simp [advancesPerformed, ih]

/-- C15 (counterexample): after 32767 interrupts without a loop iteration the
counter holds 32767, the largest value of the 16-bit int, and the next firing
of the handler leaves -32768 in it: the counter does not increase by 1. -/
theorem C15_increment_overflows_at_int_max :
    (run configured (started 0x08)
      (List.replicate 32767 Event.interrupt)).increment_updates_needed = 32767 ∧
    (ISR_TCA0_OVF (run configured (started 0x08)
      (List.replicate 32767 Event.interrupt))).increment_updates_needed = -32768 ∧
    (ISR_TCA0_OVF (run configured (started 0x08)
      (List.replicate 32767 Event.interrupt))).increment_updates_needed
      ≠ (run configured (started 0x08)
          (List.replicate 32767 Event.interrupt)).increment_updates_needed + 1 := by
  have hi : interrupts (List.replicate 32767 Event.interrupt) = 32767 :=
    List.count_replicate_self _ _
  obtain ⟨_, hr⟩ := run_accounting configured (List.replicate 32767 Event.interrupt)
    (started 0x08) (by decide) (by rw [hi]; decide)
  rw [advancesPerformed_replicate_interrupt, hi] at hr
  have hc : (run configured (started 0x08)
      (List.replicate 32767 Event.interrupt)).increment_updates_needed = 32767 := by
    rw [hr]; rfl
  have hw : (ISR_TCA0_OVF (run configured (started 0x08)
      (List.replicate 32767 Event.interrupt))).increment_updates_needed = -32768 := by
    show wrapInt16 (_ + 1) = _
    rw [hc]; decide
  refine ⟨hc, hw, ?_⟩
  rw [hw, hc]
  decide

/-- C15 (amended): each firing of the interrupt handler leaves both strobe
timers, the trace of pixel calls and hence the pixel buffer unchanged (it
issues no setPixelColor and no show()), and changes nothing but
increment_updates_needed; it increases that counter by exactly 1 whenever the
counter, a 16-bit int, is below 32767. -/
theorem C15_isr_increments_pending_only (s : State) :
    (-32768 ≤ s.increment_updates_needed → s.increment_updates_needed < 32767 →
      (ISR_TCA0_OVF s).increment_updates_needed = s.increment_updates_needed + 1) ∧
    (ISR_TCA0_OVF s).bea_state = s.bea_state ∧
    (ISR_TCA0_OVF s).col_state = s.col_state ∧
    (ISR_TCA0_OVF s).bea_dur_in_state = s.bea_dur_in_state ∧
    (ISR_TCA0_OVF s).col_dur_in_state = s.col_dur_in_state ∧
    (ISR_TCA0_OVF s).calls = s.calls ∧
    newCalls s (ISR_TCA0_OVF s) = [] ∧
    pixelBuffer (ISR_TCA0_OVF s).calls = pixelBuffer s.calls ∧
    ISR_TCA0_OVF s = withPending (ISR_TCA0_OVF s).increment_updates_needed s := by
  refine ⟨?_, rfl, rfl, rfl, rfl, rfl, ?_, rfl, rfl⟩
  · intro h1 h2
    show wrapInt16 (s.increment_updates_needed + 1) = _
    exact wrapInt16_id _ (by omega) (by omega)
  · simp [newCalls, ISR_TCA0_OVF]

/-- C15 (witness): the handler fired once after startup. -/
theorem C15_isr_increments_pending_only_witness :
    (-32768 : Int) ≤ (started 0x08).increment_updates_needed ∧
    (started 0x08).increment_updates_needed < 32767 ∧
    (ISR_TCA0_OVF (started 0x08)).increment_updates_needed
      = (started 0x08).increment_updates_needed + 1 :=
  ⟨by decide, by decide,
    (C15_isr_increments_pending_only (started 0x08)).1 (by decide) (by decide)⟩

/-! ## The timer invariant -/

/-- With off-durations between 1 and 255, the timer part of the loop body
keeps both timers OFF with a count below the off-duration. -/
theorem advanceTimers_keeps_off (t : Timing) (s : State)
    (hb : 1 ≤ t.BEA_LO ∧ t.BEA_LO ≤ 255) (hc : 1 ≤ t.COL_LO ∧ t.COL_LO ≤ 255)
    (h : s.bea_state = false ∧ s.bea_dur_in_state < t.BEA_LO ∧
      s.col_state = false ∧ s.col_dur_in_state < t.COL_LO) :
    (advanceTimers t s).bea_state = false ∧ (advanceTimers t s).bea_dur_in_state < t.BEA_LO ∧
    (advanceTimers t s).col_state = false ∧ (advanceTimers t s).col_dur_in_state < t.COL_LO := by
  obtain ⟨h1, h2, h3, h4⟩ := h
  rw [advanceTimers_bea_state, advanceTimers_bea_dur, advanceTimers_col_state,
    advanceTimers_col_dur]
  have w1 : wrapU8 (s.bea_dur_in_state + 1) = s.bea_dur_in_state + 1 :=
    Nat.mod_eq_of_lt (by omega)
  have w2 : wrapU8 (s.col_dur_in_state + 1) = s.col_dur_in_state + 1 :=
    Nat.mod_eq_of_lt (by omega)
  simp only [beaconDue, collisionDue, h1, h3, w1, w2]
  refine ⟨?_, ?_, ?_, ?_⟩
  · split_ifs <;> simp_all
  · split_ifs <;> simp_all
    omega
  · split_ifs <;> simp_all
  · split_ifs <;> simp_all
    omega

theorem run_keeps_off (t : Timing) (es : List Event)
    (hb : 1 ≤ t.BEA_LO ∧ t.BEA_LO ≤ 255) (hc : 1 ≤ t.COL_LO ∧ t.COL_LO ≤ 255) :
    ∀ s : State,
      (s.bea_state = false ∧ s.bea_dur_in_state < t.BEA_LO ∧
        s.col_state = false ∧ s.col_dur_in_state < t.COL_LO) →
      ((run t s es).bea_state = false ∧ (run t s es).bea_dur_in_state < t.BEA_LO ∧
        (run t s es).col_state = false ∧ (run t s es).col_dur_in_state < t.COL_LO) := by
  induction es with
  | nil => intro s h; exact h
  | cons e es ih =>
    intro s h
    have hr : run t s (e :: es) = run t (step t s e) es := rfl
    rw [hr]
    apply ih
    cases e with
    | interrupt => exact h
    | iteration =>
      have hs : step t s Event.iteration = loopIteration t s := rfl
      rw [hs]
      unfold loopIteration
      by_cases hg : s.increment_updates_needed > 0
      · rw [if_pos hg]
        exact advanceTimers_keeps_off t s hb hc h
      · rw [if_neg hg]
        exact h

/-- C16: for durations between 1 and 255, in every state reached from startup
by any sequence of interrupts and loop iterations, each strobe timer's count
is below the threshold of its current state, and incrementing the 8-bit
count does not wrap it. -/
theorem C16_timer_invariant (PORTA_IN : Nat) (t : Timing) (es : List Event)
    (hb : 1 ≤ t.BEA_HI ∧ t.BEA_HI ≤ 255 ∧ 1 ≤ t.BEA_LO ∧ t.BEA_LO ≤ 255)
    (hc : 1 ≤ t.COL_HI ∧ t.COL_HI ≤ 255 ∧ 1 ≤ t.COL_LO ∧ t.COL_LO ≤ 255) :
    (run t (started PORTA_IN) es).bea_dur_in_state
      < (if (run t (started PORTA_IN) es).bea_state then t.BEA_HI else t.BEA_LO) ∧
    (run t (started PORTA_IN) es).col_dur_in_state
      < (if (run t (started PORTA_IN) es).col_state then t.COL_HI else t.COL_LO) ∧
    (run t (started PORTA_IN) es).bea_dur_in_state + 1 < 256 ∧
    (run t (started PORTA_IN) es).col_dur_in_state + 1 < 256 := by
  obtain ⟨h1, h2, h3, h4⟩ := run_keeps_off t es ⟨hb.2.2.1, hb.2.2.2⟩ ⟨hc.2.2.1, hc.2.2.2⟩
    (started PORTA_IN)
    ⟨rfl, by show 0 < t.BEA_LO; omega, rfl, by show 0 < t.COL_LO; omega⟩
  rw [h1, h3]
  refine ⟨h2, h4, ?_, ?_⟩ <;> omega

/-- C16 (witness): the configured durations, three interrupts and two loop
iterations after startup. -/
theorem C16_timer_invariant_witness :
    (1 ≤ configured.BEA_HI ∧ configured.BEA_HI ≤ 255 ∧
      1 ≤ configured.BEA_LO ∧ configured.BEA_LO ≤ 255) ∧
    (1 ≤ configured.COL_HI ∧ configured.COL_HI ≤ 255 ∧
      1 ≤ configured.COL_LO ∧ configured.COL_LO ≤ 255) ∧
    (run configured (started 0x08)
        [Event.interrupt, Event.iteration, Event.interrupt, Event.interrupt,
          Event.iteration]).bea_dur_in_state
      < (if (run configured (started 0x08)
          [Event.interrupt, Event.iteration, Event.interrupt, Event.interrupt,
            Event.iteration]).bea_state then configured.BEA_HI else configured.BEA_LO) :=
  ⟨by decide, by decide,
    (C16_timer_invariant 0x08 configured
      [Event.interrupt, Event.iteration, Event.interrupt, Event.interrupt, Event.iteration]
      (by decide) (by decide)).1⟩

/-! ## Independence of the two timers -/

/-- The colors the beacon pixels hold after one execution of the loop body. -/
theorem loopBody_pixelBuffer_bea (t : Timing) (s : State) :
    pixelBuffer (loopBody t s).calls BEA_LIGHT_A_IDX =
      (if beaconDue t s = true then
        (if (loopBody t s).bea_state = false then BEA_LIGHT_COLOR else OFF_COLOR)
       else pixelBuffer s.calls BEA_LIGHT_A_IDX) ∧
    pixelBuffer (loopBody t s).calls BEA_LIGHT_B_IDX =
      (if beaconDue t s = true then
        (if (loopBody t s).bea_state = false then BEA_LIGHT_COLOR else OFF_COLOR)
       else pixelBuffer s.calls BEA_LIGHT_B_IDX) := by
  have hb : (loopBody t s).bea_state = (advanceTimers t s).bea_state := rfl
  rw [loopBody_calls, advanceTimers_calls_exact, hb]
  unfold pixelBuffer
  rw [List.foldl_append]
  cases beaconDue t s <;> cases collisionDue t s <;>
    simp [Function.update_apply, BEA_LIGHT_A_IDX, BEA_LIGHT_B_IDX, COL_LIGHT_A_IDX,
      COL_LIGHT_B_IDX]

/-- The colors the anti-collision pixels hold after one execution of the loop
body. -/
theorem loopBody_pixelBuffer_col (t : Timing) (s : State) :
    pixelBuffer (loopBody t s).calls COL_LIGHT_A_IDX =
      (if collisionDue t s = true then
        (if (loopBody t s).col_state = false then COL_LIGHT_COLOR else OFF_COLOR)
       else pixelBuffer s.calls COL_LIGHT_A_IDX) ∧
    pixelBuffer (loopBody t s).calls COL_LIGHT_B_IDX =
      (if collisionDue t s = true then
        (if (loopBody t s).col_state = false then COL_LIGHT_COLOR else OFF_COLOR)
       else pixelBuffer s.calls COL_LIGHT_B_IDX) := by
  have hb : (loopBody t s).col_state = (advanceTimers t s).col_state := rfl
  rw [loopBody_calls, advanceTimers_calls_exact, hb]
  unfold pixelBuffer
  rw [List.foldl_append]
  cases beaconDue t s <;> cases collisionDue t s <;>
    simp [Function.update_apply, BEA_LIGHT_A_IDX, BEA_LIGHT_B_IDX, COL_LIGHT_A_IDX,
      COL_LIGHT_B_IDX]

/-- C17: two executions of the loop body that start with the same beacon
timer and the same colors in beacon pixels 3 and 4 end with the same beacon
timer and the same colors in those pixels, whatever the rest of the two
states; and likewise for the anti-collision timer and pixels 5 and 0. -/
theorem C17_timers_independent (t : Timing) (s1 s2 : State) :
    (s1.bea_state = s2.bea_state → s1.bea_dur_in_state = s2.bea_dur_in_state →
      pixelBuffer s1.calls BEA_LIGHT_A_IDX = pixelBuffer s2.calls BEA_LIGHT_A_IDX →
      pixelBuffer s1.calls BEA_LIGHT_B_IDX = pixelBuffer s2.calls BEA_LIGHT_B_IDX →
      (loopBody t s1).bea_state = (loopBody t s2).bea_state ∧
      (loopBody t s1).bea_dur_in_state = (loopBody t s2).bea_dur_in_state ∧
      pixelBuffer (loopBody t s1).calls BEA_LIGHT_A_IDX
        = pixelBuffer (loopBody t s2).calls BEA_LIGHT_A_IDX ∧
      pixelBuffer (loopBody t s1).calls BEA_LIGHT_B_IDX
        = pixelBuffer (loopBody t s2).calls BEA_LIGHT_B_IDX) ∧
    (s1.col_state = s2.col_state → s1.col_dur_in_state = s2.col_dur_in_state →
      pixelBuffer s1.calls COL_LIGHT_A_IDX = pixelBuffer s2.calls COL_LIGHT_A_IDX →
      pixelBuffer s1.calls COL_LIGHT_B_IDX = pixelBuffer s2.calls COL_LIGHT_B_IDX →
      (loopBody t s1).col_state = (loopBody t s2).col_state ∧
      (loopBody t s1).col_dur_in_state = (loopBody t s2).col_dur_in_state ∧
      pixelBuffer (loopBody t s1).calls COL_LIGHT_A_IDX
        = pixelBuffer (loopBody t s2).calls COL_LIGHT_A_IDX ∧
      pixelBuffer (loopBody t s1).calls COL_LIGHT_B_IDX
        = pixelBuffer (loopBody t s2).calls COL_LIGHT_B_IDX) := by
  constructor
  · intro h1 h2 h3 h4
    have hd : beaconDue t s1 = beaconDue t s2 := by
      unfold beaconDue
      rw [h1, h2]
    have hs : (loopBody t s1).bea_state = (loopBody t s2).bea_state := by
      show (advanceTimers t s1).bea_state = (advanceTimers t s2).bea_state
      rw [advanceTimers_bea_state, advanceTimers_bea_state, hd, h1]
    have hc : (loopBody t s1).bea_dur_in_state = (loopBody t s2).bea_dur_in_state := by
      show (advanceTimers t s1).bea_dur_in_state = (advanceTimers t s2).bea_dur_in_state
      rw [advanceTimers_bea_dur, advanceTimers_bea_dur, hd, h2]
    obtain ⟨a1, b1⟩ := loopBody_pixelBuffer_bea t s1
    obtain ⟨a2, b2⟩ := loopBody_pixelBuffer_bea t s2
    exact ⟨hs, hc, by rw [a1, a2, hd, hs, h3], by rw [b1, b2, hd, hs, h4]⟩
  · intro h1 h2 h3 h4
    have hd : collisionDue t s1 = collisionDue t s2 := by
      unfold collisionDue
      rw [h1, h2]
    have hs : (loopBody t s1).col_state = (loopBody t s2).col_state := by
      show (advanceTimers t s1).col_state = (advanceTimers t s2).col_state
      rw [advanceTimers_col_state, advanceTimers_col_state, hd, h1]
    have hc : (loopBody t s1).col_dur_in_state = (loopBody t s2).col_dur_in_state := by
      show (advanceTimers t s1).col_dur_in_state = (advanceTimers t s2).col_dur_in_state
      rw [advanceTimers_col_dur, advanceTimers_col_dur, hd, h2]
    obtain ⟨a1, b1⟩ := loopBody_pixelBuffer_col t s1
    obtain ⟨a2, b2⟩ := loopBody_pixelBuffer_col t s2
    exact ⟨hs, hc, by rw [a1, a2, hd, hs, h3], by rw [b1, b2, hd, hs, h4]⟩

set_option maxRecDepth 100000 in
/-- C17 (witness): the state after 11 ticks and the same state with the
anti-collision timer replaced by (ON, 7). -/
theorem C17_timers_independent_witness :
    (loopBody configured (ISR_TCA0_OVF (ticks configured 11 (started 0x08)))).bea_state
      = (loopBody configured
          { ISR_TCA0_OVF (ticks configured 11 (started 0x08)) with
            col_state := true, col_dur_in_state := 7 }).bea_state ∧
    (loopBody configured (ISR_TCA0_OVF (ticks configured 11 (started 0x08)))).bea_dur_in_state
      = (loopBody configured
          { ISR_TCA0_OVF (ticks configured 11 (started 0x08)) with
            col_state := true, col_dur_in_state := 7 }).bea_dur_in_state ∧
    pixelBuffer
        (loopBody configured (ISR_TCA0_OVF (ticks configured 11 (started 0x08)))).calls
        BEA_LIGHT_A_IDX
      = pixelBuffer (loopBody configured
          { ISR_TCA0_OVF (ticks configured 11 (started 0x08)) with
            col_state := true, col_dur_in_state := 7 }).calls BEA_LIGHT_A_IDX ∧
    pixelBuffer
        (loopBody configured (ISR_TCA0_OVF (ticks configured 11 (started 0x08)))).calls
        BEA_LIGHT_B_IDX
      = pixelBuffer (loopBody configured
          { ISR_TCA0_OVF (ticks configured 11 (started 0x08)) with
            col_state := true, col_dur_in_state := 7 }).calls BEA_LIGHT_B_IDX :=
  (C17_timers_independent configured (ISR_TCA0_OVF (ticks configured 11 (started 0x08)))
    { ISR_TCA0_OVF (ticks configured 11 (started 0x08)) with
      col_state := true, col_dur_in_state := 7 }).1 rfl rfl rfl rfl

/-! ## Configuration values -/

/-- C18 (the code at the failing input): the configured total strobe times
are 12 + 12 = 24 increments for the beacon and 10 + 11 = 21 for the
anti-collision lights; their greatest common divisor is 3, so they are not
coprime. -/
theorem C18_total_strobe_times_share_factor_3 :
    BEA_LIGHT_INCR_HI + BEA_LIGHT_INCR_LO = 24 ∧
    COL_LIGHT_INCR_HI + COL_LIGHT_INCR_LO = 21 ∧
    Nat.gcd (BEA_LIGHT_INCR_HI + BEA_LIGHT_INCR_LO) (COL_LIGHT_INCR_HI + COL_LIGHT_INCR_LO) = 3 ∧
    ¬ Nat.Coprime (BEA_LIGHT_INCR_HI + BEA_LIGHT_INCR_LO)
        (COL_LIGHT_INCR_HI + COL_LIGHT_INCR_LO) := by
  decide

/-- C19 (the code at the failing input): whatever the side-select input and
the state before, setup() leaves 0xFFFF = 65535 in the period register
TCA0_SINGLE_PER, not INCREMENT_OVERFLOW; INCREMENT_OVERFLOW = 1953 is the
value the formula of the configuration comment gives for 100 ms
(100 ms * 20,000,000 / 1024 = 1953.125, rounded down). -/
theorem C19_period_register_is_0xFFFF (PORTA_IN : Nat) (s : State) :
    (setup PORTA_IN s).TCA0_SINGLE_PER = 0xFFFF ∧
    (setup PORTA_IN s).TCA0_SINGLE_PER ≠ INCREMENT_OVERFLOW ∧
    INCREMENT_OVERFLOW = 1953 ∧
    INCREMENT_OVERFLOW = 100 * 20000000 / (1000 * 1024) := by
  refine ⟨rfl, ?_, rfl, by decide⟩
  show (0xFFFF : Nat) ≠ INCREMENT_OVERFLOW
  decide

/-! ## The latch test of the pixel driver -/

/-- C20: for 32-bit values of the current time `now` and of `endTime`: if
endTime > now, canShow() sets endTime to now and returns false; otherwise it
leaves endTime unchanged and returns true exactly when now - endTime is at
least 300. -/
theorem C20_canShow (now endTime : Nat) (hn : now < 4294967296) (he : endTime < 4294967296) :
    (endTime > now → canShow now endTime = (false, now)) ∧
    (¬ endTime > now →
      (canShow now endTime).2 = endTime ∧
      ((canShow now endTime).1 = true ↔ now - endTime ≥ 300)) := by
  unfold canShow subU32
  constructor
  · intro h
    simp only [if_pos h]
    have h0 : (now + 4294967296 - now) % 4294967296 = 0 := by
      rw [Nat.add_sub_cancel_left]
    rw [h0]
    rfl
  · intro h
    simp only [if_neg h]
    refine ⟨trivial, ?_⟩
    have h1 : (now + 4294967296 - endTime) % 4294967296 = now - endTime := by
      have h2 : now + 4294967296 - endTime = (now - endTime) + 4294967296 := by omega
      rw [h2, Nat.add_mod_right]
      exact Nat.mod_eq_of_lt (by omega)
    rw [h1]
    simp

/-- C20 (witness): a clock rollover (endTime ahead of now), and a latch
interval of exactly 300 microseconds. -/
theorem C20_canShow_witness :
    (1000 : Nat) > 10 ∧ canShow 10 1000 = (false, 10) ∧
    ¬ (700 : Nat) > 1000 ∧ (canShow 1000 700).2 = 700 ∧
    ((canShow 1000 700).1 = true ↔ 1000 - 700 ≥ 300) :=
  ⟨by decide, (C20_canShow 10 1000 (by decide) (by decide)).1 (by decide),
    by decide, (C20_canShow 1000 700 (by decide) (by decide)).2 (by decide)⟩

/-! ## The configured run: states and colors -/

/-- With off-durations between 1 and 255 and both timers OFF below their
off-duration, the loop body's timer part appends no write of OFF_COLOR. -/
theorem advanceTimers_no_off (t : Timing) (s : State)
    (hb : 1 ≤ t.BEA_LO ∧ t.BEA_LO ≤ 255) (hc : 1 ≤ t.COL_LO ∧ t.COL_LO ≤ 255)
    (h : s.bea_state = false ∧ s.bea_dur_in_state < t.BEA_LO ∧
      s.col_state = false ∧ s.col_dur_in_state < t.COL_LO) :
    ∃ ws, (advanceTimers t s).calls = s.calls ++ ws ∧
      ∀ n, Call.setPixelColor n OFF_COLOR ∉ ws := by
  obtain ⟨k1, _, k3, _⟩ := advanceTimers_keeps_off t s hb hc h
  refine ⟨_, advanceTimers_calls_exact t s, ?_⟩
  intro n
  rw [k1, k3]
  have c1 : BEA_LIGHT_COLOR ≠ OFF_COLOR := by decide
  have c2 : COL_LIGHT_COLOR ≠ OFF_COLOR := by decide
  cases beaconDue t s <;> cases collisionDue t s <;>
    simp [Ne.symm c1, Ne.symm c2]

theorem run_no_off (t : Timing) (es : List Event)
    (hb : 1 ≤ t.BEA_LO ∧ t.BEA_LO ≤ 255) (hc : 1 ≤ t.COL_LO ∧ t.COL_LO ≤ 255) :
    ∀ s : State,
      (s.bea_state = false ∧ s.bea_dur_in_state < t.BEA_LO ∧
        s.col_state = false ∧ s.col_dur_in_state < t.COL_LO) →
      ∃ rest, (run t s es).calls = s.calls ++ rest ∧
        ∀ n, Call.setPixelColor n OFF_COLOR ∉ rest := by
  induction es with
  | nil => intro s _; exact ⟨[], by simp [run], fun _ => by simp⟩
  | cons e es ih =>
    intro s h
    have hr : run t s (e :: es) = run t (step t s e) es := rfl
    rw [hr]
    cases e with
    | interrupt =>
      obtain ⟨r, h1, h2⟩ := ih (step t s Event.interrupt) h
      exact ⟨r, h1, h2⟩
    | iteration =>
      have hs : step t s Event.iteration = loopIteration t s := rfl
      rw [hs]
      unfold loopIteration
      by_cases hg : s.increment_updates_needed > 0
      · rw [if_pos hg]
        obtain ⟨r2, h2, w2⟩ := ih (loopBody t s) (advanceTimers_keeps_off t s hb hc h)
        obtain ⟨r1, h1, w1⟩ := advanceTimers_no_off t s hb hc h
        refine ⟨r1 ++ r2, ?_, ?_⟩
        · rw [h2, loopBody_calls, h1, List.append_assoc]
        · intro n hm
          rcases List.mem_append.1 hm with hm | hm
          · exact w1 n hm
          · exact w2 n hm
      · rw [if_neg hg]
        exact ih s h

/-- C21: with the configured durations, whatever the side-select input, in
every state reached from startup by any sequence of interrupts and loop
iterations bea_state and col_state are both false, and the trace of calls
holds no setPixelColor with OFF_COLOR, on a beacon or anti-collision pixel or
on any other. -/
theorem C21_configured_timers_stay_off (PORTA_IN : Nat) (es : List Event) :
    (run configured (started PORTA_IN) es).bea_state = false ∧
    (run configured (started PORTA_IN) es).col_state = false ∧
    (∀ n, Call.setPixelColor n OFF_COLOR ∉ (run configured (started PORTA_IN) es).calls) ∧
    Call.setPixelColor BEA_LIGHT_A_IDX OFF_COLOR ∉ (run configured (started PORTA_IN) es).calls ∧
    Call.setPixelColor BEA_LIGHT_B_IDX OFF_COLOR ∉ (run configured (started PORTA_IN) es).calls ∧
    Call.setPixelColor COL_LIGHT_A_IDX OFF_COLOR ∉ (run configured (started PORTA_IN) es).calls ∧
    Call.setPixelColor COL_LIGHT_B_IDX OFF_COLOR ∉ (run configured (started PORTA_IN) es).calls := by
  have hb : 1 ≤ configured.BEA_LO ∧ configured.BEA_LO ≤ 255 := by decide
  have hc : 1 ≤ configured.COL_LO ∧ configured.COL_LO ≤ 255 := by decide
  have h0 : (started PORTA_IN).bea_state = false ∧
      (started PORTA_IN).bea_dur_in_state < configured.BEA_LO ∧
      (started PORTA_IN).col_state = false ∧
      (started PORTA_IN).col_dur_in_state < configured.COL_LO :=
    ⟨rfl, by show 0 < configured.BEA_LO; decide, rfl, by show 0 < configured.COL_LO; decide⟩
  obtain ⟨k1, _, k3, _⟩ := run_keeps_off configured es hb hc (started PORTA_IN) h0
  obtain ⟨rest, hr, hw⟩ := run_no_off configured es hb hc (started PORTA_IN) h0
  have hall : ∀ n, Call.setPixelColor n OFF_COLOR ∉ (run configured (started PORTA_IN) es).calls := by
    intro n hm
    rw [hr] at hm
    rcases List.mem_append.1 hm with hm | hm
    · rw [started_calls] at hm
      have p1 : NAV_LIGHT_P_COLOR ≠ OFF_COLOR := by decide
      have p2 : NAV_LIGHT_S_COLOR ≠ OFF_COLOR := by decide
      cases hp : PA3_high PORTA_IN <;> simp [hp, Ne.symm p1, Ne.symm p2] at hm
    · exact hw n hm
  exact ⟨k1, k3, hall, hall _, hall _, hall _, hall _⟩

/-! ## The configured run: flushes per tick -/

/-- With the configured durations, the tick after `n` processed ticks issues
one `show()` if 12 divides `n + 1`, plus one if 11 divides `n + 1`. -/
theorem showCount_tick_configured (PORTA_IN : Nat) (n : Nat) :
    showCount (newCalls (ticks configured n (started PORTA_IN))
        (tick configured (ticks configured n (started PORTA_IN))))
      = (if 12 ∣ n + 1 then 1 else 0) + (if 11 ∣ n + 1 then 1 else 0) := by
  obtain ⟨h1, h2, h3, h4, h5⟩ := ticks_configured PORTA_IN n
  generalize ticks configured n (started PORTA_IN) = s at h1 h2 h3 h4 h5 ⊢
  rw [tick_of_idle configured s h5]
  obtain ⟨ws, hw, hc⟩ := advanceTimers_calls configured s
  rw [newCalls_of_append s (advanceTimers configured s) ws hw, hc]
  have a1 : n % 12 < 12 := Nat.mod_lt _ (by decide)
  have a2 : n % 11 < 11 := Nat.mod_lt _ (by decide)
  have b : (beaconDue configured s = true) ↔ 12 ∣ n + 1 := by
    simp only [beaconDue, h1, h3, configured, BEA_LIGHT_INCR_LO, wrapU8, decide_eq_true_eq]
    have : (n % 12 + 1) % 256 = n % 12 + 1 := Nat.mod_eq_of_lt (by omega)
    rw [this]
    simp only [Bool.false_eq_true, if_false]
    omega
  have c : (collisionDue configured s = true) ↔ 11 ∣ n + 1 := by
    simp only [collisionDue, h2, h4, configured, COL_LIGHT_INCR_LO, wrapU8, decide_eq_true_eq]
    have : (n % 11 + 1) % 256 = n % 11 + 1 := Nat.mod_eq_of_lt (by omega)
    rw [this]
    simp only [Bool.false_eq_true, if_false]
    omega
  simp only [b, c]

/-- C22: with the configured durations and whatever the side-select input,
for every t >= 1 the number of show() calls issued while the t-th tick after
startup is processed is (1 if 12 divides t, else 0) + (1 if 11 divides t,
else 0); it is at most 1 for every t below 132 (so for the first 23 ticks)
and it is 2 for t = 132. -/
theorem C22_shows_on_tick (PORTA_IN : Nat) (k : Nat) (hk : 1 ≤ k) :
    showCount (newCalls (ticks configured (k - 1) (started PORTA_IN))
        (tick configured (ticks configured (k - 1) (started PORTA_IN))))
      = (if 12 ∣ k then 1 else 0) + (if 11 ∣ k then 1 else 0) ∧
    (k < 132 →
      showCount (newCalls (ticks configured (k - 1) (started PORTA_IN))
        (tick configured (ticks configured (k - 1) (started PORTA_IN)))) ≤ 1) ∧
    (k ≤ 23 →
      showCount (newCalls (ticks configured (k - 1) (started PORTA_IN))
        (tick configured (ticks configured (k - 1) (started PORTA_IN)))) ≤ 1) ∧
    (k = 132 →
      showCount (newCalls (ticks configured (k - 1) (started PORTA_IN))
        (tick configured (ticks configured (k - 1) (started PORTA_IN)))) = 2) ∧
    tick configured (ticks configured (k - 1) (started PORTA_IN))
      = ticks configured k (started PORTA_IN) := by
  obtain ⟨n, rfl⟩ : ∃ n, k = n + 1 := ⟨k - 1, by omega⟩
  have hs := showCount_tick_configured PORTA_IN n
  rw [Nat.add_sub_cancel]
  have hlt : n + 1 < 132 →
      (if 12 ∣ n + 1 then 1 else 0) + (if 11 ∣ n + 1 then 1 else 0) ≤ 1 := by
    intro h
    split_ifs <;> omega
  refine ⟨hs, ?_, ?_, ?_, ?_⟩
  · intro h
    rw [hs]
    exact hlt h
  · intro h
    rw [hs]
    exact hlt (by omega)
  · intro h
    rw [hs]
    have h131 : n = 131 := by omega
    subst h131
    decide
  · unfold ticks
    rw [Function.iterate_succ_apply']

/-- C22 (witness): tick 132, the first with two flushes. -/
theorem C22_shows_on_tick_witness :
    1 ≤ 132 ∧
    showCount (newCalls (ticks configured (132 - 1) (started 0x08))
        (tick configured (ticks configured (132 - 1) (started 0x08))))
      = (if 12 ∣ 132 then 1 else 0) + (if 11 ∣ 132 then 1 else 0) :=
  ⟨by decide, (C22_shows_on_tick 0x08 132 (by decide)).1⟩

/-! ## Pixel indices -/

/-- C23: the six configured pixel indices are pairwise distinct and each is
below NEOPIXEL_CNT = 6; every pixel index written by a setPixelColor call of
setup() or of any later loop iteration is one of the six, hence below
NEOPIXEL_CNT, and its NEOPIXEL_BYTES_PER_PIXEL bytes lie inside the buffer of
NEOPIXEL_CNT * NEOPIXEL_BYTES_PER_PIXEL = 18 bytes. -/
theorem C23_pixel_indices_in_range (PORTA_IN : Nat) (t : Timing) (es : List Event) (n : Nat)
    (h : writesPixel n (run t (started PORTA_IN) es).calls = true) :
    n ∈ [NAV_LIGHT_A_IDX, NAV_LIGHT_B_IDX, BEA_LIGHT_A_IDX, BEA_LIGHT_B_IDX,
      COL_LIGHT_A_IDX, COL_LIGHT_B_IDX] ∧
    n < NEOPIXEL_CNT ∧
    n * NEOPIXEL_BYTES_PER_PIXEL + NEOPIXEL_BYTES_PER_PIXEL
      ≤ NEOPIXEL_CNT * NEOPIXEL_BYTES_PER_PIXEL ∧
    NEOPIXEL_CNT * NEOPIXEL_BYTES_PER_PIXEL = 18 ∧
    NEOPIXEL_CNT = 6 ∧
    [NAV_LIGHT_A_IDX, NAV_LIGHT_B_IDX, BEA_LIGHT_A_IDX, BEA_LIGHT_B_IDX,
      COL_LIGHT_A_IDX, COL_LIGHT_B_IDX].Nodup ∧
    (∀ i ∈ [NAV_LIGHT_A_IDX, NAV_LIGHT_B_IDX, BEA_LIGHT_A_IDX, BEA_LIGHT_B_IDX,
      COL_LIGHT_A_IDX, COL_LIGHT_B_IDX], i < NEOPIXEL_CNT) := by
  have hn : n = NAV_LIGHT_A_IDX ∨ n = NAV_LIGHT_B_IDX ∨ n = BEA_LIGHT_A_IDX ∨
      n = BEA_LIGHT_B_IDX ∨ n = COL_LIGHT_A_IDX ∨ n = COL_LIGHT_B_IDX := by
    by_contra hc
    simp only [not_or] at hc
    obtain ⟨c1, c2, c3, c4, c5, c6⟩ := hc
    obtain ⟨rest, hr, hw⟩ := run_calls_strobe t es (started PORTA_IN)
    rw [hr, writesPixel_append, hw n c3 c4 c5 c6, started_calls] at h
    simp [writesPixel, Ne.symm c1, Ne.symm c2] at h
  have hlt : n < NEOPIXEL_CNT := by
    rcases hn with h | h | h | h | h | h <;> rw [h] <;> decide
  refine ⟨by simpa using hn, hlt, ?_, by decide, rfl, by decide, by decide⟩
  have h6 : NEOPIXEL_CNT = 6 := rfl
  have h3 : NEOPIXEL_BYTES_PER_PIXEL = 3 := rfl
  rw [h6] at hlt ⊢
  rw [h3]
  omega

set_option maxRecDepth 100000 in
/-- C23 (witness): beacon pixel 3, written on the 12th tick. -/
theorem C23_pixel_indices_in_range_witness :
    writesPixel 3 (run configured (started 0x08)
      (List.replicate 12 [Event.interrupt, Event.iteration]).flatten).calls = true ∧
    3 < NEOPIXEL_CNT ∧
    3 * NEOPIXEL_BYTES_PER_PIXEL + NEOPIXEL_BYTES_PER_PIXEL
      ≤ NEOPIXEL_CNT * NEOPIXEL_BYTES_PER_PIXEL :=
  ⟨by decide,
    (C23_pixel_indices_in_range 0x08 configured
      (List.replicate 12 [Event.interrupt, Event.iteration]).flatten 3 (by decide)).2.1,
    (C23_pixel_indices_in_range 0x08 configured
      (List.replicate 12 [Event.interrupt, Event.iteration]).flatten 3 (by decide)).2.2.1⟩

end EfsLed
